import Mathlib

set_option maxRecDepth 10000

/-!
Verification of the rig-definition file parser
(`source/main/resources/rig_def_fileformat/RigDef_Parser.cpp`).

This file gives a shallow embedding of the parser: parser state is an
explicit record, every embedded `Parser::...` member function becomes a
pure function from state (plus the tokenized line) to state.  Floating
point scalars are modelled as rationals (the embedded code only copies,
compares against 0 and stores them), C `long`/`int` values as `Int` with
explicit 32-bit casts where the source casts.

The repository snapshot contains only `RigDef_Parser.cpp` (plus an
unrelated utility file and a demo script); the headers with the plain
data structs (`RigDef_File.h`, `RigDef_Node.h`, `SimConstants.h`), the
keyword regex table (`RigDef_Regexes.h`) and the external collaborators
(Ogre string utilities, libc `strtol`) are not in the snapshot.  Those
parts are modelled from the specification; each such definition carries a
doc comment starting with `Modelled from the spec:`.
-/

namespace RigDef

/-- Embeds `IsWhitespace` from RigDef_Parser.cpp (space or tab). -/
def IsWhitespace (c : Char) : Bool :=
  c == ' ' || c == '\t'

/-- Embeds `IsSeparator` from RigDef_Parser.cpp: whitespace, colon, pipe or comma. -/
def IsSeparator (c : Char) : Bool :=
  IsWhitespace c || c == ':' || c == '|' || c == ','

/-- Numeric value of a list of decimal digits. -/
def digitsVal (ds : List Char) : Nat :=
  ds.foldl (fun a c => 10 * a + (c.toNat - 48)) 0

/-- Characters treated as leading whitespace by the C numeric parsers. -/
def isNumSpace (c : Char) : Bool :=
  c == ' ' || c == '\t' || c == '\n' || c == '\r' || c == '\x0b' || c == '\x0c'

/-- Modelled from the spec: libc `strtol(p, &end, 10)` (external collaborator).
Returns the parsed value and the number of characters consumed (the offset of
`end` from `p`); when no digits are found the value is 0 and nothing is
consumed.  Overflow (`errno`) is not modelled: no embedded input approaches
`LONG_MAX`. -/
def strtol10 (s : List Char) : Int × Nat :=
  let wsLen := (s.takeWhile isNumSpace).length
  let rest := s.drop wsLen
  let signLen : Nat :=
    match rest with
    | c :: _ => if c == '+' || c == '-' then 1 else 0
    | [] => 0
  let neg : Bool :=
    match rest with
    | c :: _ => c == '-'
    | [] => false
  let ds := (rest.drop signLen).takeWhile Char.isDigit
  if ds.length = 0 then (0, 0)
  else (if neg then -(digitsVal ds : Int) else (digitsVal ds : Int), wsLen + signLen + ds.length)

/-- Float scalars of the source are modelled as exact unreduced fractions:
the embedded code only builds decimal literals, copies them around and
compares them against zero, so no normalization is ever required (comparison
is by cross-multiplication, the denominator is always positive). -/
structure Frac where
  num : Int
  den : Nat
deriving DecidableEq, Repr

instance (n : Nat) : OfNat Frac n := ⟨⟨(n : Int), 1⟩⟩

instance : Neg Frac := ⟨fun a => ⟨-a.num, a.den⟩⟩

instance : LT Frac := ⟨fun a b => a.num * (b.den : Int) < b.num * (a.den : Int)⟩

instance (a b : Frac) : Decidable (a < b) := Int.decLt _ _

/-- Cast of a C integer value to a float value. -/
def Frac.ofInt (n : Int) : Frac := ⟨n, 1⟩

/-- Modelled from the spec: the collaborator float decoder
(`Ogre::StringConverter::parseReal`, external library): a standard stream
numeric parse of optional whitespace, an optional sign, integer digits and an
optional fraction, returning the fallback 0 when no digits are present and
ignoring anything after the parsed prefix.  Exponents are not modelled (never
exercised by the embedded inputs). -/
def parseRealModel (s : String) : Frac :=
  let l := s.toList
  let rest := l.drop (l.takeWhile isNumSpace).length
  let neg : Bool :=
    match rest with
    | c :: _ => c == '-'
    | [] => false
  let rest2 : List Char :=
    match rest with
    | '-' :: t => t
    | '+' :: t => t
    | _ => rest
  let ip := rest2.takeWhile Char.isDigit
  let rest3 := rest2.drop ip.length
  let fp : List Char :=
    match rest3 with
    | '.' :: t => t.takeWhile Char.isDigit
    | _ => []
  if ip.length = 0 ∧ fp.length = 0 then 0
  else
    let n : Int := (digitsVal ip : Int) * (10 : Int) ^ fp.length + (digitsVal fp : Int)
    { num := if neg then -n else n, den := 10 ^ fp.length }

/-- Modelled from the spec: the collaborator int decoder (the `PARSEINT` macro,
`Ogre::StringConverter::parseInt`): standard stream int parse, 0 on failure. -/
def parseIntModel (s : String) : Int :=
  (strtol10 s.toList).1

/-- Cast of a mathematical integer to a C 32-bit signed `int`. -/
def int32cast (x : Int) : Int :=
  (x + 2 ^ 31) % 2 ^ 32 - 2 ^ 31

/-- Cast of a mathematical integer to a C 32-bit `unsigned int`. -/
def uint32cast (x : Int) : Nat :=
  (x % 2 ^ 32).toNat

/-- Splits a character list at delimiter characters, dropping empty pieces
(shared backend of the tokenizer and the comma splitter). -/
def splitByAux (isDelim : Char → Bool) : List Char → List Char → List (List Char)
  | [], acc => if acc.isEmpty then [] else [acc.reverse]
  | c :: rest, acc =>
    if isDelim c then
      if acc.isEmpty then splitByAux isDelim rest []
      else acc.reverse :: splitByAux isDelim rest []
    else splitByAux isDelim rest (c :: acc)

/-- Embeds `Parser::LINE_MAX_ARGS`.  Modelled from the spec: the bounded
argument array ("overflow tokens beyond the maximum are silently dropped");
the constant itself lives in the missing header RigDef_Parser.h. -/
def LINE_MAX_ARGS : Nat := 100

/-- Embeds `Parser::TokenizeCurrentLine`: split at runs of separators
(space, tab, colon, pipe, comma), keeping at most `LINE_MAX_ARGS` slices. -/
def TokenizeCurrentLine (line : String) : List String :=
  ((splitByAux IsSeparator line.toList []).take LINE_MAX_ARGS).map fun l => String.mk l

/-- Modelled from the spec: the collaborator splitter `Ogre::StringUtil::split`
(external library): splits on any of the delimiter characters; runs of
delimiters produce no empty tokens. -/
def ogreSplit (s : String) (delims : List Char) : List String :=
  (splitByAux (fun c => delims.contains c) s.toList []).map fun l => String.mk l

/-- Modelled from the spec: collaborator `Ogre::StringUtil::trim` (strips
spaces, tabs and carriage returns from both ends). -/
def ogreTrim (s : String) : String :=
  let d : Char → Bool := fun c => c == ' ' || c == '\t' || c == '\r'
  String.mk (((s.toList.dropWhile d).reverse.dropWhile d).reverse)

/-- Modelled from the spec: collaborator `Ogre::StringUtil::toLowerCase`. -/
def ogreToLower (s : String) : String :=
  String.mk (s.toList.map Char.toLower)

/-- Prefix test on strings (via the character lists, so that it evaluates by
kernel reduction). -/
def strStartsWith (s p : String) : Bool :=
  s.toList.take p.toList.length == p.toList

/-- Embeds the `Keyword` enumeration, restricted to the members exercised by
the verified claims; the full table has roughly 90 members.  Lines bearing any
other keyword are outside the scope of this development (they classify as
`kwInvalid` here). -/
inductive Keyword
  | kwInvalid
  | kwBeams
  | kwNodes
  | kwNodes2
  | kwWheels
  | kwCamerarail
  | kwHelp
  | kwComment
  | kwDescription
  | kwSection
  | kwEndSection
  | kwEnd
  | kwSubmesh
  | kwSetNodeDefaults
  | kwSetInertiaDefaults
  | kwDetacherGroup
  | kwAntilockbrakes
  | kwTractioncontrol
deriving DecidableEq, Repr

/-- Diagnostic severity (`Console::CONSOLE_SYSTEM_WARNING` / `..._ERROR`). -/
inductive Sev
  | warning
  | error
deriving DecidableEq, Repr

/-- One diagnostic, as assembled by `Parser::LogMessage` (file name omitted:
it is constant over a parse). -/
structure Msg where
  sev : Sev
  lineNo : Nat
  kw : Keyword
  text : String
deriving DecidableEq, Repr

/-- Embeds `NodeDefaults` (fields per the assignments in
`ParseDirectiveSetNodeDefaults`; the struct lives in the missing header). -/
structure NodeDefaults where
  load_weight : Frac
  friction : Frac
  volume : Frac
  surface : Frac
  options : Nat
deriving DecidableEq, Repr

/-- Modelled from the spec: the fixed engine node defaults
(`m_ror_node_defaults`, built once by the `Parser` constructor from the
default-constructed `NodeDefaults` in the missing RigDef_File.h); the spec
says the first chain link "seeds from fixed engine defaults". -/
def rorNodeDefaultsV : NodeDefaults :=
  { load_weight := -1, friction := 1, volume := 1, surface := 1, options := 0 }

/-- Embeds `Inertia` (fields per the assignments in
`ParseDirectiveSetInertiaDefaults`). -/
structure Inertia where
  start_delay_factor : Frac
  stop_delay_factor : Frac
  start_function : String
  stop_function : String
deriving DecidableEq, Repr

/-- Modelled from the spec: the fixed engine inertia defaults
(`m_ror_default_inertia`, built once by the `Parser` constructor). -/
def rorDefaultInertiaV : Inertia :=
  { start_delay_factor := -1, stop_delay_factor := -1, start_function := "", stop_function := "" }

/-- Embeds `BeamDefaults::Scale`. -/
structure BeamDefaultsScale where
  springiness : Frac
  damping_constant : Frac
  deformation_threshold_constant : Frac
  breaking_threshold_constant : Frac
deriving DecidableEq, Repr

/-- Embeds `BeamDefaults` (underscore-prefixed source fields are renamed
without the underscore). -/
structure BeamDefaults where
  springiness : Frac
  damping_constant : Frac
  deformation_threshold : Frac
  breaking_threshold : Frac
  visual_beam_diameter : Frac
  beam_material_name : String
  plastic_deform_coef : Frac
  enable_advanced_deformation : Bool
  is_user_defined : Bool
  is_plastic_deform_coef_user_defined : Bool
  scale : BeamDefaultsScale
deriving DecidableEq, Repr

/-- Modelled from the spec: engine constants from the missing SimConstants.h,
used by `Parser::Prepare` to seed the beam-defaults chain. -/
def DEFAULT_SPRING : Frac := 9000000

/-- Modelled from the spec: engine damping constant (missing SimConstants.h). -/
def DEFAULT_DAMP : Frac := 12000

/-- Modelled from the spec: engine deform threshold (missing SimConstants.h). -/
def BEAM_DEFORM : Frac := 400000

/-- Modelled from the spec: engine break threshold (missing SimConstants.h). -/
def BEAM_BREAK : Frac := 1000000

/-- Modelled from the spec: engine visual beam diameter (missing SimConstants.h). -/
def DEFAULT_BEAM_DIAMETER : Frac := Frac.mk 1 20

/-- The beam-defaults value installed by `Parser::Prepare` (a default
`BeamDefaults` with the five engine constants written over it; the remaining
constructor defaults are modelled from the spec, missing RigDef_File.h). -/
def beamDefaultsInit : BeamDefaults :=
  { springiness := DEFAULT_SPRING
    damping_constant := DEFAULT_DAMP
    deformation_threshold := BEAM_DEFORM
    breaking_threshold := BEAM_BREAK
    visual_beam_diameter := DEFAULT_BEAM_DIAMETER
    beam_material_name := "tracks/beam"
    plastic_deform_coef := 0
    enable_advanced_deformation := false
    is_user_defined := false
    is_plastic_deform_coef_user_defined := false
    scale := { springiness := 1, damping_constant := 1,
               deformation_threshold_constant := 1, breaking_threshold_constant := 1 } }

/-- Modelled from the spec: `Node::Ref` state flag (missing RigDef_Node.h);
only the distinctness of the four bits matters here. -/
def IMPORT_STATE_IS_VALID : Nat := 1

/-- Modelled from the spec: `Node::Ref` state flag (missing RigDef_Node.h). -/
def IMPORT_STATE_MUST_CHECK_NAMED_FIRST : Nat := 2

/-- Modelled from the spec: `Node::Ref` state flag (missing RigDef_Node.h). -/
def REGULAR_STATE_IS_VALID : Nat := 4

/-- Modelled from the spec: `Node::Ref` state flag (missing RigDef_Node.h). -/
def REGULAR_STATE_IS_NAMED : Nat := 8

/-- Embeds `Node::Ref`: the textual token, both numeric and named
interpretations and the validity flags. -/
structure NodeRef where
  name : String
  number : Nat
  flags : Nat
  lineNo : Nat
deriving DecidableEq, Repr

/-- The default-constructed (invalid) `Node::Ref`. -/
def NodeRef.invalid : NodeRef :=
  { name := "", number := 0, flags := 0, lineNo := 0 }

/-- Embeds `Node::Ref::IsValidAnyState`. -/
def NodeRef.isValidAnyState (r : NodeRef) : Bool :=
  (r.flags &&& IMPORT_STATE_IS_VALID != 0) || (r.flags &&& REGULAR_STATE_IS_VALID != 0)

/-- Embeds `Node::Id` (either a number via `SetNum` or a name via `setStr`). -/
inductive NodeId
  | noneId
  | num (n : Nat)
  | str (s : String)
deriving DecidableEq, Repr

/-- Node option bit `Node::OPTION_l_LOAD_WEIGHT`.  Modelled from the spec:
bit values live in the missing header; only distinctness matters. -/
def OPTION_l_LOAD_WEIGHT : Nat := 1

/-- Node option bit (missing header, value modelled). -/
def OPTION_n_MOUSE_GRAB : Nat := 2

/-- Node option bit (missing header, value modelled). -/
def OPTION_m_NO_MOUSE_GRAB : Nat := 4

/-- Node option bit (missing header, value modelled). -/
def OPTION_f_NO_SPARKS : Nat := 8

/-- Node option bit (missing header, value modelled). -/
def OPTION_x_EXHAUST_POINT : Nat := 16

/-- Node option bit (missing header, value modelled). -/
def OPTION_y_EXHAUST_DIRECTION : Nat := 32

/-- Node option bit (missing header, value modelled). -/
def OPTION_c_NO_GROUND_CONTACT : Nat := 64

/-- Node option bit (missing header, value modelled). -/
def OPTION_h_HOOK_POINT : Nat := 128

/-- Node option bit (missing header, value modelled). -/
def OPTION_e_TERRAIN_EDIT_POINT : Nat := 256

/-- Node option bit (missing header, value modelled). -/
def OPTION_b_EXTRA_BUOYANCY : Nat := 512

/-- Node option bit (missing header, value modelled). -/
def OPTION_p_NO_PARTICLES : Nat := 1024

/-- Node option bit (missing header, value modelled). -/
def OPTION_L_LOG : Nat := 2048

/-- Embeds the `BITMASK_SET_1` macro. -/
def BITMASK_SET_1 (o b : Nat) : Nat := o ||| b

/-- Embeds the `BITMASK_SET_0` macro (clears bit `b`, a power of two). -/
def BITMASK_SET_0 (o b : Nat) : Nat := o - (o &&& b)

/-- Embeds `DefaultMinimass`. -/
structure DefaultMinimass where
  min_mass_Kg : Frac
deriving DecidableEq, Repr

/-- Embeds the `Node` record (fields per the assignments in
`ParseNodesUnified`; constructor defaults modelled from the spec). -/
structure Node where
  id : NodeId
  posx : Frac := 0
  posy : Frac := 0
  posz : Frac := 0
  options : Nat := 0
  load_weight_override : Frac := 0
  has_load_weight_override : Bool := false
  node_defaults : NodeDefaults
  beam_defaults : BeamDefaults
  default_minimass : Option DefaultMinimass
  detacher_group : Int
deriving DecidableEq, Repr

/-- Beam option bit `Beam::OPTION_i_INVISIBLE` (missing header, value modelled). -/
def Beam_OPTION_i_INVISIBLE : Nat := 1

/-- Beam option bit (missing header, value modelled). -/
def Beam_OPTION_r_ROPE : Nat := 2

/-- Beam option bit (missing header, value modelled). -/
def Beam_OPTION_s_SUPPORT : Nat := 4

/-- Embeds the `Beam` record (fields per the assignments in `ParseBeams`). -/
structure Beam where
  node1 : NodeRef
  node2 : NodeRef
  options : Nat := 0
  extension_break_limit : Frac := 0
  has_extension_break_limit : Bool := false
  defaults : BeamDefaults
  detacher_group : Int
deriving DecidableEq, Repr

/-- Embeds the `Wheel` record (fields per the assignments in `ParseWheel`). -/
structure Wheel where
  radius : Frac
  width : Frac
  num_rays : Int
  node1 : NodeRef
  node2 : NodeRef
  rigidity_node : NodeRef
  braking : Int
  propulsion : Int
  reference_arm_node : NodeRef
  mass : Frac
  springiness : Frac
  damping : Frac
  face_material_name : String
  band_material_name : String
  node_defaults : NodeDefaults
  beam_defaults : BeamDefaults
deriving DecidableEq, Repr

/-- Embeds the `CameraRail` staged record. -/
structure CameraRail where
  nodes : List NodeRef := []
deriving DecidableEq, Repr

/-- Embeds the `Submesh` staged record.  The cab-triangle and texcoord blocks
are not part of the verified claims, so only the flag set by
`ParseDirectiveBackmesh` is carried. -/
structure Submesh where
  backmesh : Bool := false
deriving DecidableEq, Repr

/-- Embeds the `AntiLockBrakes` record; constructor defaults modelled from the
spec ("conservative default state (dashboard-visible, toggleable, enabled)"). -/
structure AntiLockBrakes where
  regulation_force : Frac := 0
  min_speed : Int := 0
  pulse_per_sec : Frac := 0
  attr_is_on : Bool := true
  attr_no_dashboard : Bool := false
  attr_no_toggle : Bool := false
deriving DecidableEq, Repr

/-- Embeds the `TractionControl` record; constructor defaults modelled from
the spec as for `AntiLockBrakes`. -/
structure TractionControl where
  regulation_force : Frac := 0
  wheel_slip : Frac := 0
  fade_speed : Frac := 0
  pulse_per_sec : Frac := 0
  attr_is_on : Bool := true
  attr_no_dashboard : Bool := false
  attr_no_toggle : Bool := false
deriving DecidableEq, Repr

/-- Embeds the `Help` record (`ParseHelp`). -/
structure Help where
  material : String
deriving DecidableEq, Repr

/-- Embeds `File::Module`: one ordered collection per embedded record kind. -/
structure FileModule where
  name : String
  nodes : List Node := []
  beams : List Beam := []
  wheels : List Wheel := []
  camerarail : List CameraRail := []
  submeshes : List Submesh := []
  antilockbrakes : List AntiLockBrakes := []
  tractioncontrol : List TractionControl := []
  help : List Help := []
deriving DecidableEq, Repr

/-- Modelled from the spec: the reserved root-module name (constant in the
missing RigDef_File.h). -/
def ROOT_MODULE_NAME : String := "_Root_"

/-- Embeds the mutable members of class `Parser` plus the `File` being built.
The C++ `m_current_module` is a pointer into the module registry; here the
pointed-to module lives in `currentModule` and its home slot (`rootModule`
or the entry in `userModules`) is written back whenever the current pointer
moves (see `storeCurrentModule`), which is the value-level reading of writing
through the shared pointer. -/
structure ParserState where
  definitionName : String
  rootModule : FileModule
  userModules : List (String × FileModule)
  currentModule : FileModule
  currentBlock : Keyword
  logKeyword : Keyword
  lineNumber : Nat
  messages : List Msg
  userNodeDefaults : NodeDefaults
  rorNodeDefaults : NodeDefaults
  userBeamDefaults : BeamDefaults
  userDefaultInertia : Inertia
  rorDefaultInertia : Inertia
  setDefaultMinimass : Option DefaultMinimass
  currentDetacherGroup : Int
  currentSubmesh : Option Submesh
  currentCameraRail : Option CameraRail
  anyNamedNodeDefined : Bool
  seqImporterEnabled : Bool
  importerNumberedNodes : List Nat
  importerNamedNodes : List String
  importerWheelRequests : List (Keyword × Int × Bool)
deriving DecidableEq, Repr

/-- Embeds `Parser::LogMessage`: append one diagnostic tagged with the current
line number and `m_log_keyword`. -/
def LogMessage (st : ParserState) (sev : Sev) (text : String) : ParserState :=
  { st with messages := st.messages ++ [{ sev := sev, lineNo := st.lineNumber, kw := st.logKeyword, text := text }] }

/-- Embeds `Parser::CheckNumArguments`: warn and fail when fewer tokens than
required are present. -/
def CheckNumArguments (st : ParserState) (numArgs : Nat) (minArgs : Nat) : Bool × ParserState :=
  if numArgs < minArgs then
    (false, LogMessage st Sev.warning
      ("Not enough arguments (got " ++ toString numArgs ++ ", " ++ toString minArgs ++ " needed), skipping line"))
  else (true, st)

/-- Embeds `Parser::GetArgStr` (out-of-range reads never happen on the
source side because every caller checks the argument count first). -/
def GetArgStr (args : List String) (i : Nat) : String :=
  args.getD i ""

/-- Embeds `Parser::GetArgChar` (first character of the slice). -/
def GetArgChar (args : List String) (i : Nat) : Char :=
  (GetArgStr args i).toList.headD ' '

/-- Embeds `Parser::GetArgFloat` (delegates to the collaborator float parse
with fallback 0; emits no diagnostics). -/
def GetArgFloat (args : List String) (i : Nat) : Frac :=
  parseRealModel (GetArgStr args i)

/-- Embeds `Parser::ParseArgFloat` (same collaborator parse on a raw token). -/
def ParseArgFloat (s : String) : Frac :=
  parseRealModel s

/-- Embeds `Parser::GetArgLong`: `strtol` base 10; an unparseable argument
logs an error and yields 0; trailing characters after the number log a
warning but keep the parsed value.  The `errno` overflow path is not
modelled (see `strtol10`). -/
def GetArgLong (st : ParserState) (args : List String) (i : Nat) : Int × ParserState :=
  let s := GetArgStr args i
  let r := strtol10 s.toList
  if r.2 = 0 then
    (0, LogMessage st Sev.error ("Argument [" ++ toString (i + 1) ++ "] is not valid integer"))
  else if r.2 ≠ s.toList.length then
    (r.1, LogMessage st Sev.warning ("Integer argument [" ++ toString (i + 1) ++ "] has invalid trailing characters"))
  else (r.1, st)

/-- Embeds `Parser::GetArgInt` (`static_cast<int>` of `GetArgLong`). -/
def GetArgInt (st : ParserState) (args : List String) (i : Nat) : Int × ParserState :=
  let r := GetArgLong st args i
  (int32cast r.1, r.2)

/-- Embeds `Parser::GetArgUint` (`static_cast<unsigned>` of `GetArgLong`). -/
def GetArgUint (st : ParserState) (args : List String) (i : Nat) : Nat × ParserState :=
  let r := GetArgLong st args i
  (uint32cast r.1, r.2)

/-- Embeds `Parser::ParseArgUint` (`strtol` with only the `errno` check, which
is not modelled; no end-pointer diagnostics). -/
def ParseArgUint (s : String) : Nat :=
  uint32cast (strtol10 s.toList).1

/-- Embeds `Parser::ParseArgInt` (`static_cast<int>` of `ParseArgUint`). -/
def ParseArgInt (s : String) : Int :=
  int32cast ((strtol10 s.toList).1 % 2 ^ 32)

/-- Embeds `Parser::_ParseNodeRef`: while the sequential importer is enabled
both the numeric (absolute value) and the named interpretation are kept. -/
def ParseNodeRefStr (st : ParserState) (s : String) : NodeRef :=
  if st.seqImporterEnabled then
    let n0 := parseIntModel s
    let n := if n0 < 0 then -n0 else n0
    let flags0 := IMPORT_STATE_IS_VALID ||| REGULAR_STATE_IS_VALID ||| REGULAR_STATE_IS_NAMED
    let flags := if st.anyNamedNodeDefined then flags0 ||| IMPORT_STATE_MUST_CHECK_NAMED_FIRST else flags0
    { name := s, number := uint32cast n, flags := flags, lineNo := st.lineNumber }
  else
    { name := s, number := 0, flags := REGULAR_STATE_IS_VALID ||| REGULAR_STATE_IS_NAMED, lineNo := st.lineNumber }

/-- Embeds `Parser::GetArgNodeRef`. -/
def GetArgNodeRef (st : ParserState) (args : List String) (i : Nat) : NodeRef :=
  ParseNodeRefStr st (GetArgStr args i)

/-- Embeds `Parser::GetArgRigidityNode` ("9999" is the no-node sentinel). -/
def GetArgRigidityNode (st : ParserState) (args : List String) (i : Nat) : NodeRef :=
  if GetArgStr args i ≠ "9999" then GetArgNodeRef st args i else NodeRef.invalid

/-- Embeds `Parser::GetArgBraking` (legal values 0..4, otherwise an error and
the fallback 0). -/
def GetArgBraking (st : ParserState) (args : List String) (i : Nat) : Int × ParserState :=
  let r := GetArgInt st args i
  if r.1 = 0 ∨ r.1 = 1 ∨ r.1 = 2 ∨ r.1 = 3 ∨ r.1 = 4 then (r.1, r.2)
  else (0, LogMessage r.2 Sev.error "Bad value of param (braking), using 0 (not braked)")

/-- Embeds `Parser::GetArgPropulsion` (legal values 0..2, otherwise an error
and the fallback 0). -/
def GetArgPropulsion (st : ParserState) (args : List String) (i : Nat) : Int × ParserState :=
  let r := GetArgInt st args i
  if r.1 = 0 ∨ r.1 = 1 ∨ r.1 = 2 then (r.1, r.2)
  else (0, LogMessage r.2 Sev.error "Bad value of param (propulsion), using 0 (no propulsion)")

/-- Writes the current module back through the shared pointer into its home
slot (the value-level counterpart of the aliasing between `m_current_module`
and `m_root_module` / `m_definition->user_modules`). -/
def storeCurrentModule (st : ParserState) : ParserState :=
  if st.currentModule.name = ROOT_MODULE_NAME then { st with rootModule := st.currentModule }
  else
    { st with userModules :=
        st.userModules.map fun p => if p.1 = st.currentModule.name then (p.1, st.currentModule) else p }

/-- Applies an update to the module `m_current_module` points at. -/
def modifyCurModule (st : ParserState) (f : FileModule → FileModule) : ParserState :=
  { st with currentModule := f st.currentModule }

/-- Embeds the flush half of `Parser::BeginBlock(KEYWORD_INVALID)`: a staged
submesh is always committed; a staged camera rail with no nodes logs a
warning (and, in the source, stays staged because the reset is only in the
else branch), otherwise it is committed and cleared. -/
def flushStagedObjects (st : ParserState) : ParserState :=
  let st1 :=
    match st.currentSubmesh with
    | some sm =>
      { (modifyCurModule st fun m => { m with submeshes := m.submeshes ++ [sm] }) with
        currentSubmesh := none }
    | none => st
  match st1.currentCameraRail with
  | some rail =>
    if rail.nodes.isEmpty then
      LogMessage st1 Sev.warning "Empty section camerarail, ignoring..."
    else
      { (modifyCurModule st1 fun m => { m with camerarail := m.camerarail ++ [rail] }) with
        currentCameraRail := none }
  | none => st1

/-- Embeds `Parser::BeginBlock`. -/
def BeginBlock (st : ParserState) (keyword : Keyword) : ParserState :=
  if keyword = Keyword.kwInvalid then
    { flushStagedObjects st with currentBlock := Keyword.kwInvalid }
  else if keyword = Keyword.kwCamerarail then
    let st1 := { flushStagedObjects st with currentBlock := Keyword.kwInvalid }
    { st1 with currentCameraRail := some {}, currentBlock := Keyword.kwCamerarail }
  else
    { st with currentBlock := keyword }

/-- Embeds the module-switch tail of `Parser::ProcessChangeModuleLine`: flush
via `BeginBlock(KEYWORD_INVALID)`, then point `m_current_module` at the root
module or at the named module, creating it on first entry. -/
def switchModule (st : ParserState) (newName : String) : ParserState :=
  let st1 := storeCurrentModule (BeginBlock st Keyword.kwInvalid)
  if newName = ROOT_MODULE_NAME then { st1 with currentModule := st1.rootModule }
  else
    match st1.userModules.lookup newName with
    | some m => { st1 with currentModule := m }
    | none =>
      let m : FileModule := { name := newName }
      { st1 with userModules := st1.userModules ++ [(newName, m)], currentModule := m }

/-- Embeds `Parser::ProcessChangeModuleLine`. -/
def ProcessChangeModuleLine (st : ParserState) (keyword : Keyword) (args : List String) : ParserState :=
  if keyword = Keyword.kwEndSection then
    if st.currentModule.name = ROOT_MODULE_NAME then
      LogMessage st Sev.error "Misplaced keyword end_section (already in root module), ignoring..."
    else switchModule st ROOT_MODULE_NAME
  else if keyword = Keyword.kwSection then
    match CheckNumArguments st args.length 3 with
    | (false, st1) => st1
    | (true, st1) =>
      let newName := GetArgStr args 2
      if newName = st1.currentModule.name then
        LogMessage st1 Sev.error "Attempt to re-enter current module, ignoring..."
      else switchModule st1 newName
  else st

/-- Embeds `Parser::ParseDirectiveSubmesh`. -/
def ParseDirectiveSubmesh (st : ParserState) : ParserState :=
  let st1 := BeginBlock st Keyword.kwInvalid
  { st1 with currentSubmesh := some {} }

/-- Embeds `Parser::Finalize`.  The sequential importer finalize pass lives in
a source file outside the snapshot and rewrites only node references; it
touches none of the collections reasoned about here, so it is the identity in
this embedding. -/
def Finalize (st : ParserState) : ParserState :=
  BeginBlock st Keyword.kwInvalid

/-- Embeds one arm of the character switch in `Parser::_ParseNodeOptions`:
`some` is a recognised option character with its bit effect, `none` falls to
the warning default arm. -/
def parseNodeOptionChar (opts : Nat) (c : Char) : Option Nat :=
  if c = 'l' then some (BITMASK_SET_1 opts OPTION_l_LOAD_WEIGHT)
  else if c = 'n' then some (BITMASK_SET_0 (BITMASK_SET_1 opts OPTION_n_MOUSE_GRAB) OPTION_m_NO_MOUSE_GRAB)
  else if c = 'm' then some (BITMASK_SET_0 (BITMASK_SET_1 opts OPTION_m_NO_MOUSE_GRAB) OPTION_n_MOUSE_GRAB)
  else if c = 'f' then some (BITMASK_SET_1 opts OPTION_f_NO_SPARKS)
  else if c = 'x' then some (BITMASK_SET_1 opts OPTION_x_EXHAUST_POINT)
  else if c = 'y' then some (BITMASK_SET_1 opts OPTION_y_EXHAUST_DIRECTION)
  else if c = 'c' then some (BITMASK_SET_1 opts OPTION_c_NO_GROUND_CONTACT)
  else if c = 'h' then some (BITMASK_SET_1 opts OPTION_h_HOOK_POINT)
  else if c = 'e' then some (BITMASK_SET_1 opts OPTION_e_TERRAIN_EDIT_POINT)
  else if c = 'b' then some (BITMASK_SET_1 opts OPTION_b_EXTRA_BUOYANCY)
  else if c = 'p' then some (BITMASK_SET_1 opts OPTION_p_NO_PARTICLES)
  else if c = 'L' then some (BITMASK_SET_1 opts OPTION_L_LOG)
  else none

/-- Embeds the loop of `Parser::_ParseNodeOptions` over the option characters
(recognised characters set or clear bits, anything else logs a warning and is
ignored). -/
def ParseNodeOptionsGo (st : ParserState) (opts : Nat) : List Char → Nat × ParserState
  | [] => (opts, st)
  | c :: rest =>
    match parseNodeOptionChar opts c with
    | some o => ParseNodeOptionsGo st o rest
    | none => ParseNodeOptionsGo (LogMessage st Sev.warning ("invalid option " ++ String.mk [c])) opts rest

/-- Embeds `Parser::_ParseNodeOptions` (the out-parameter is zeroed first). -/
def ParseNodeOptions (st : ParserState) (optionsStr : String) : Nat × ParserState :=
  ParseNodeOptionsGo st 0 optionsStr.toList

/-- Embeds `Parser::ParseDirectiveSetNodeDefaults`: a brand-new
`NodeDefaults` is built by copying the current one and overwriting every
scalar field with either the given value or, when that value is negative,
the engine default from `m_ror_node_defaults`; the current pointer is then
reassigned. -/
def ParseDirectiveSetNodeDefaults (st : ParserState) (args : List String) : ParserState :=
  match CheckNumArguments st args.length 2 with
  | (false, st1) => st1
  | (true, st1) =>
    let load_weight := GetArgFloat args 1
    let friction := if 2 < args.length then GetArgFloat args 2 else -1
    let volume := if 3 < args.length then GetArgFloat args 3 else -1
    let surface := if 4 < args.length then GetArgFloat args 4 else -1
    let opt_str := if 5 < args.length then GetArgStr args 5 else ""
    let copy := st1.userNodeDefaults
    let r := ParseNodeOptions st1 opt_str
    { r.2 with userNodeDefaults :=
      { load_weight := if load_weight < 0 then st1.rorNodeDefaults.load_weight else load_weight
        friction := if friction < 0 then st1.rorNodeDefaults.friction else friction
        volume := if volume < 0 then st1.rorNodeDefaults.volume else volume
        surface := if surface < 0 then st1.rorNodeDefaults.surface else surface
        options := (fun _ => r.1) copy.options } }

/-- Embeds `Parser::ParseDirectiveSetInertiaDefaults`: a negative start or
stop delay resets the chain to the engine defaults; otherwise a new value is
copied from the current one and the given fields are overwritten. -/
def ParseDirectiveSetInertiaDefaults (st : ParserState) (args : List String) : ParserState :=
  match CheckNumArguments st args.length 2 with
  | (false, st1) => st1
  | (true, st1) =>
    let start_delay := GetArgFloat args 1
    let stop_delay := if 2 < args.length then GetArgFloat args 2 else 0
    if start_delay < 0 ∨ stop_delay < 0 then
      { st1 with userDefaultInertia := st1.rorDefaultInertia }
    else
      let i1 := { st1.userDefaultInertia with
                  start_delay_factor := start_delay, stop_delay_factor := stop_delay }
      let i2 := if 3 < args.length then { i1 with start_function := GetArgStr args 3 } else i1
      let i3 := if 4 < args.length then { i2 with stop_function := GetArgStr args 4 } else i2
      { st1 with userDefaultInertia := i3 }

/-- Embeds `Parser::ParseDirectiveDetacherGroup`: the literal "end" resets the
current detacher group to 0, anything else is decoded as an integer. -/
def ParseDirectiveDetacherGroup (st : ParserState) (args : List String) : ParserState :=
  match CheckNumArguments st args.length 2 with
  | (false, st1) => st1
  | (true, st1) =>
    if GetArgStr args 1 = "end" then { st1 with currentDetacherGroup := 0 }
    else
      let r := GetArgInt st1 args 1
      { r.2 with currentDetacherGroup := r.1 }

/-- Embeds one arm of the flag switch in `Parser::ParseBeams` (the dummy flag
`v` is accepted and does nothing). -/
def parseBeamOptionChar (opts : Nat) (c : Char) : Option Nat :=
  if c = 'v' then some opts
  else if c = 'i' then some (opts ||| Beam_OPTION_i_INVISIBLE)
  else if c = 'r' then some (opts ||| Beam_OPTION_r_ROPE)
  else if c = 's' then some (opts ||| Beam_OPTION_s_SUPPORT)
  else none

/-- Embeds the option-character loop of `Parser::ParseBeams`. -/
def ParseBeamOptionsGo (st : ParserState) (opts : Nat) : List Char → Nat × ParserState
  | [] => (opts, st)
  | c :: rest =>
    match parseBeamOptionChar opts c with
    | some o => ParseBeamOptionsGo st o rest
    | none => ParseBeamOptionsGo (LogMessage st Sev.warning ("ignoring invalid option " ++ String.mk [c])) opts rest

/-- Embeds `Parser::ParseBeams`. -/
def ParseBeams (st : ParserState) (args : List String) : ParserState :=
  match CheckNumArguments st args.length 2 with
  | (false, st1) => st1
  | (true, st1) =>
    let n1 := GetArgNodeRef st1 args 0
    let n2 := GetArgNodeRef st1 args 1
    let r := if 2 < args.length then ParseBeamOptionsGo st1 0 (GetArgStr args 2).toList else (0, st1)
    if 3 < args.length ∧ r.1 &&& Beam_OPTION_s_SUPPORT ≠ 0 then
      let rb := GetArgInt r.2 args 3
      let support_break_factor : Frac := Frac.ofInt rb.1
      let support_break_limit : Frac := if 0 < support_break_factor then support_break_factor else 0
      modifyCurModule rb.2 fun m =>
        { m with beams := m.beams ++
            [{ node1 := n1, node2 := n2, options := r.1,
               extension_break_limit := support_break_limit, has_extension_break_limit := true,
               defaults := st1.userBeamDefaults, detacher_group := st1.currentDetacherGroup }] }
    else
      modifyCurModule r.2 fun m =>
        { m with beams := m.beams ++
            [{ node1 := n1, node2 := n2, options := r.1,
               defaults := st1.userBeamDefaults, detacher_group := st1.currentDetacherGroup }] }

/-- Embeds `Parser::ParseNodesUnified`. -/
def ParseNodesUnified (st : ParserState) (args : List String) : ParserState :=
  match CheckNumArguments st args.length 4 with
  | (false, st1) => st1
  | (true, st1) =>
    let ridst : NodeId × ParserState :=
      if st1.currentBlock = Keyword.kwNodes2 then
        let nodeName := GetArgStr args 0
        let st2 := if st1.seqImporterEnabled then
          { st1 with importerNamedNodes := st1.importerNamedNodes ++ [nodeName] } else st1
        (NodeId.str nodeName, { st2 with anyNamedNodeDefined := true })
      else
        let r := GetArgUint st1 args 0
        let st2 := if r.2.seqImporterEnabled then
          { r.2 with importerNumberedNodes := r.2.importerNumberedNodes ++ [r.1] } else r.2
        (NodeId.num r.1, st2)
    let st2 := ridst.2
    let px := GetArgFloat args 1
    let py := GetArgFloat args 2
    let pz := GetArgFloat args 3
    let ropts : Nat × ParserState :=
      if 4 < args.length then ParseNodeOptions st2 (GetArgStr args 4) else (0, st2)
    let rlwo : Frac × Bool × ParserState :=
      if 5 < args.length then
        if ropts.1 &&& OPTION_l_LOAD_WEIGHT ≠ 0 then (GetArgFloat args 5, true, ropts.2)
        else (0, false, LogMessage ropts.2 Sev.warning
          "Node has load-weight-override value specified, but option l is not present. Ignoring value...")
      else (0, false, ropts.2)
    modifyCurModule rlwo.2.2 fun m =>
      { m with nodes := m.nodes ++
          [{ id := ridst.1, posx := px, posy := py, posz := pz, options := ropts.1,
             load_weight_override := rlwo.1, has_load_weight_override := rlwo.2.1,
             node_defaults := st1.userNodeDefaults, beam_defaults := st1.userBeamDefaults,
             default_minimass := st1.setDefaultMinimass,
             detacher_group := st1.currentDetacherGroup }] }

/-- Embeds `Parser::ParseWheel`. -/
def ParseWheel (st : ParserState) (args : List String) : ParserState :=
  match CheckNumArguments st args.length 14 with
  | (false, st1) => st1
  | (true, st1) =>
    let radius := GetArgFloat args 0
    let width := GetArgFloat args 1
    let rnum := GetArgInt st1 args 2
    let n1 := GetArgNodeRef rnum.2 args 3
    let n2 := GetArgNodeRef rnum.2 args 4
    let rigidity := GetArgRigidityNode rnum.2 args 5
    let rbrak := GetArgBraking rnum.2 args 6
    let rprop := GetArgPropulsion rbrak.2 args 7
    let refArm := GetArgNodeRef rprop.2 args 8
    let wheel : Wheel :=
      { radius := radius, width := width, num_rays := rnum.1,
        node1 := n1, node2 := n2, rigidity_node := rigidity,
        braking := rbrak.1, propulsion := rprop.1, reference_arm_node := refArm,
        mass := GetArgFloat args 9, springiness := GetArgFloat args 10,
        damping := GetArgFloat args 11,
        face_material_name := GetArgStr args 12, band_material_name := GetArgStr args 13,
        node_defaults := st1.userNodeDefaults, beam_defaults := st1.userBeamDefaults }
    let st2 := rprop.2
    let st3 := if st2.seqImporterEnabled then
      { st2 with importerWheelRequests :=
          st2.importerWheelRequests ++ [(Keyword.kwWheels, wheel.num_rays, rigidity.isValidAnyState)] }
      else st2
    modifyCurModule st3 fun m => { m with wheels := m.wheels ++ [wheel] }

/-- Embeds `Parser::ParseHelp` (free text: the whole line is the material). -/
def ParseHelp (st : ParserState) (line : String) : ParserState :=
  modifyCurModule st fun m => { m with help := m.help ++ [{ material := line }] }

/-- Embeds `Parser::ParseCameraRails` (appends one node reference to the
staged rail; the rail is always staged while the camerarail block is open). -/
def ParseCameraRails (st : ParserState) (args : List String) : ParserState :=
  match st.currentCameraRail with
  | some rail => { st with currentCameraRail := some { rail with nodes := rail.nodes ++ [GetArgNodeRef st args 0] } }
  | none => st

/-- Embeds one `mode: value&value` attribute of `ParseAntiLockBrakes` /
`ParseTractionControl` (prefix comparisons via `strncmp`). -/
def applyModeAttr (isOn noDash noToggle : Bool) (attr0 : String) : Bool × Bool × Bool :=
  let attr := ogreToLower (ogreTrim attr0)
  if strStartsWith attr "nodash" then (isOn, true, noToggle)
  else if strStartsWith attr "notoggle" then (isOn, noDash, true)
  else if strStartsWith attr "on" then (true, noDash, noToggle)
  else if strStartsWith attr "off" then (false, noDash, noToggle)
  else (isOn, noDash, noToggle)

/-- Folds `applyModeAttr` over the ampersand-separated attribute list. -/
def applyModeAttrs (isOn noDash noToggle : Bool) : List String → Bool × Bool × Bool
  | [] => (isOn, noDash, noToggle)
  | a :: rest =>
    let r := applyModeAttr isOn noDash noToggle a
    applyModeAttrs r.1 r.2.1 r.2.2 rest

/-- Embeds the trailing-token loop shared by `ParseAntiLockBrakes` and
`ParseTractionControl`: a well-formed `mode:` token updates the three
attribute flags, any other token logs "missing mode" and forces the
conservative defaults. -/
def parseModeTokensGo (st : ParserState) (isOn noDash noToggle : Bool) :
    List String → (Bool × Bool × Bool) × ParserState
  | [] => ((isOn, noDash, noToggle), st)
  | tok :: rest =>
    let args2 := ogreSplit tok [':']
    let key := ogreToLower (ogreTrim (GetArgStr args2 0))
    if key = "mode" ∧ args2.length = 2 then
      let attrs := ogreSplit (GetArgStr args2 1) ['&']
      let r := applyModeAttrs isOn noDash noToggle attrs
      parseModeTokensGo st r.1 r.2.1 r.2.2 rest
    else
      parseModeTokensGo (LogMessage st Sev.error "missing mode") true false false rest

/-- Embeds `Parser::ParseAntiLockBrakes`: the line after the 15-character
keyword prefix is comma-split; note that the third token (pulse rate) is only
read when more than three tokens are present. -/
def ParseAntiLockBrakes (st : ParserState) (line : String) : ParserState :=
  let tokens := ogreSplit (String.mk (line.toList.drop 15)) [',']
  match CheckNumArguments st tokens.length 2 with
  | (false, st1) => st1
  | (true, st1) =>
    let alb0 : AntiLockBrakes :=
      { regulation_force := ParseArgFloat (GetArgStr tokens 0),
        min_speed := ParseArgInt (GetArgStr tokens 1) }
    let alb1 := if 3 < tokens.length then
      { alb0 with pulse_per_sec := ParseArgFloat (GetArgStr tokens 2) } else alb0
    let r := parseModeTokensGo st1 alb1.attr_is_on alb1.attr_no_dashboard alb1.attr_no_toggle (tokens.drop 3)
    let alb2 := { alb1 with attr_is_on := r.1.1, attr_no_dashboard := r.1.2.1, attr_no_toggle := r.1.2.2 }
    modifyCurModule r.2 fun m => { m with antilockbrakes := m.antilockbrakes ++ [alb2] }

/-- Embeds `Parser::ParseTractionControl`: the line after the 15-character
keyword is comma-split; the third and fourth tokens are read when the token
count exceeds their position. -/
def ParseTractionControl (st : ParserState) (line : String) : ParserState :=
  let tokens := ogreSplit (String.mk (line.toList.drop 15)) [',']
  match CheckNumArguments st tokens.length 2 with
  | (false, st1) => st1
  | (true, st1) =>
    let tc0 : TractionControl :=
      { regulation_force := ParseArgFloat (GetArgStr tokens 0),
        wheel_slip := ParseArgFloat (GetArgStr tokens 1) }
    let tc1 := if 2 < tokens.length then
      { tc0 with fade_speed := ParseArgFloat (GetArgStr tokens 2) } else tc0
    let tc2 := if 3 < tokens.length then
      { tc1 with pulse_per_sec := ParseArgFloat (GetArgStr tokens 3) } else tc1
    let r := parseModeTokensGo st1 tc2.attr_is_on tc2.attr_no_dashboard tc2.attr_no_toggle (tokens.drop 4)
    let tc3 := { tc2 with attr_is_on := r.1.1, attr_no_dashboard := r.1.2.1, attr_no_toggle := r.1.2.2 }
    modifyCurModule r.2 fun m => { m with tractioncontrol := m.tractioncontrol ++ [tc3] }

/-- Embeds `Parser::_TrimTrailingComments`: cut at the first semicolon, else
scan back from the last slash while the preceding character is a slash, a
space or a tab.  The function is defined in the source but has no caller;
the backward scan is modelled for positions 1 and above (position 0 would
read index -1 in the source, which is never reached by a line that survived
the comment filter in `ProcessRawLine`). -/
def trimBackScan (l : List Char) : Nat → Nat
  | 0 => 0
  | k + 1 =>
    let c := l.getD k ' '
    if c ≠ '/' ∧ c ≠ ' ' ∧ c ≠ '\t' then k + 1
    else trimBackScan l k

/-- Embeds the body of `Parser::_TrimTrailingComments` on a whole line. -/
def TrimTrailingComments (lineIn : String) : String :=
  let l := lineIn.toList
  match l.findIdx? (· = ';') with
  | some i => String.mk (l.take i)
  | none =>
    match (l.reverse.findIdx? (· = '/')).map (fun j => l.length - 1 - j) with
    | some j => String.mk (l.take (trimBackScan l j))
    | none => lineIn

/-- Modelled from the spec: the keyword table (regexes in the missing
RigDef_Regexes.h), restricted to the embedded keywords; matching is anchored
at line start, the keyword followed by a blank or the end of the line. -/
def keywordTable : List (String × Keyword) :=
  [("antilockbrakes", Keyword.kwAntilockbrakes),
   ("beams", Keyword.kwBeams),
   ("camerarail", Keyword.kwCamerarail),
   ("comment", Keyword.kwComment),
   ("description", Keyword.kwDescription),
   ("detacher_group", Keyword.kwDetacherGroup),
   ("end", Keyword.kwEnd),
   ("end_section", Keyword.kwEndSection),
   ("help", Keyword.kwHelp),
   ("nodes", Keyword.kwNodes),
   ("nodes2", Keyword.kwNodes2),
   ("section", Keyword.kwSection),
   ("set_inertia_defaults", Keyword.kwSetInertiaDefaults),
   ("set_node_defaults", Keyword.kwSetNodeDefaults),
   ("submesh", Keyword.kwSubmesh),
   ("tractioncontrol", Keyword.kwTractioncontrol),
   ("wheels", Keyword.kwWheels)]

/-- Anchored keyword match: the keyword alone or followed by a blank. -/
def keywordMatches (line : String) (kwStr : String) : Bool :=
  line == kwStr || strStartsWith line (kwStr ++ " ") || strStartsWith line (kwStr ++ "\t")

/-- One search pass over the keyword table (`FindKeywordMatch`). -/
def findKeyword (line : String) : Keyword :=
  match keywordTable.find? (fun p => keywordMatches line p.1) with
  | some p => p.2
  | none => Keyword.kwInvalid

/-- Embeds `Parser::IdentifyKeywordInCurrentLine`: quick first-letter check,
then an exact-case pass and a lowercase fallback pass. -/
def IdentifyKeywordInCurrentLine (line : String) : Keyword :=
  let c := (line.toList.headD ' ').toLower
  if c < 'a' ∨ 'z' < c then Keyword.kwInvalid
  else
    let kw := findKeyword line
    if kw ≠ Keyword.kwInvalid then kw
    else findKeyword (ogreToLower line)

/-- Embeds the block-continuation switch at the end of
`Parser::ProcessCurrentLine`, restricted to the embedded sections. -/
def dispatchBlockLine (st : ParserState) (line : String) (args : List String) : ParserState :=
  match st.currentBlock with
  | Keyword.kwBeams => ParseBeams st args
  | Keyword.kwNodes => ParseNodesUnified st args
  | Keyword.kwNodes2 => ParseNodesUnified st args
  | Keyword.kwWheels => ParseWheel st args
  | Keyword.kwCamerarail => ParseCameraRails st args
  | Keyword.kwHelp => ParseHelp st line
  | _ => st

/-- Embeds `Parser::ProcessCurrentLine`: comment guard, one-shot document-name
capture, tokenization (skipped inside comment/description blocks), keyword
identification and the two-level dispatch. -/
def ProcessCurrentLine (st : ParserState) (line : String) : ParserState :=
  if line.toList.headD ' ' = ';' ∨ line.toList.headD ' ' = '/' then st
  else if st.definitionName = "" ∧ line ≠ "" then { st with definitionName := line }
  else
    let args :=
      if st.currentBlock ≠ Keyword.kwComment ∧ st.currentBlock ≠ Keyword.kwDescription then
        TokenizeCurrentLine line
      else []
    let kw := IdentifyKeywordInCurrentLine line
    let st1 := { st with logKeyword := kw }
    match kw with
    | Keyword.kwInvalid => dispatchBlockLine { st1 with logKeyword := st1.currentBlock } line args
    | Keyword.kwEndSection => ProcessChangeModuleLine st1 Keyword.kwEndSection args
    | Keyword.kwAntilockbrakes => ParseAntiLockBrakes st1 line
    | Keyword.kwDetacherGroup => ParseDirectiveDetacherGroup st1 args
    | Keyword.kwSection => ProcessChangeModuleLine st1 Keyword.kwSection args
    | Keyword.kwSetInertiaDefaults => ParseDirectiveSetInertiaDefaults st1 args
    | Keyword.kwSetNodeDefaults => ParseDirectiveSetNodeDefaults st1 args
    | Keyword.kwSubmesh => ParseDirectiveSubmesh st1
    | Keyword.kwTractioncontrol => ParseTractionControl st1 line
    | Keyword.kwEnd => BeginBlock st1 Keyword.kwInvalid
    | _ => BeginBlock st1 kw

/-- Embeds `Parser::ProcessRawLine`: trim leading whitespace, drop blank and
comment lines, then process (the UTF-8 sanitization of the collaborator is
the identity on the valid input considered here) and advance the line
counter. -/
def ProcessRawLine (st : ParserState) (rawLine : String) : ParserState :=
  let line := String.mk (rawLine.toList.dropWhile fun c => IsWhitespace c)
  if line = "" ∨ line.toList.headD ' ' = ';' ∨ line.toList.headD ' ' = '/' then
    { st with lineNumber := st.lineNumber + 1 }
  else
    let st1 := ProcessCurrentLine st line
    { st1 with lineNumber := st1.lineNumber + 1 }

/-- Embeds `Parser::Prepare`: the fresh per-parse state. -/
def Prepare : ParserState :=
  { definitionName := ""
    rootModule := { name := ROOT_MODULE_NAME }
    userModules := []
    currentModule := { name := ROOT_MODULE_NAME }
    currentBlock := Keyword.kwInvalid
    logKeyword := Keyword.kwInvalid
    lineNumber := 1
    messages := []
    userNodeDefaults := rorNodeDefaultsV
    rorNodeDefaults := rorNodeDefaultsV
    userBeamDefaults := beamDefaultsInit
    userDefaultInertia := rorDefaultInertiaV
    rorDefaultInertia := rorDefaultInertiaV
    setDefaultMinimass := none
    currentDetacherGroup := 0
    currentSubmesh := none
    currentCameraRail := none
    anyNamedNodeDefined := false
    seqImporterEnabled := true
    importerNumberedNodes := []
    importerNamedNodes := []
    importerWheelRequests := [] }

/-- Runs the per-line pipeline over a list of raw lines from a fresh state
(the body of `ProcessOgreStream`). -/
def ProcessLines (lines : List String) : ParserState :=
  lines.foldl ProcessRawLine Prepare

/-- A whole parse: `Prepare`, the line loop, then `Finalize`. -/
def ParseRigFile (lines : List String) : ParserState :=
  Finalize (ProcessLines lines)

/-!  Proof infrastructure: many decoder helpers touch the state only by
appending diagnostics; `OnlyLogs` captures that and yields the projection
lemmas used throughout. -/

/-- States related by appending diagnostics only. -/
def OnlyLogs (st st' : ParserState) : Prop :=
  ∃ ms, st' = { st with messages := st.messages ++ ms }

theorem onlyLogs_refl (st : ParserState) : OnlyLogs st st :=
  ⟨[], by rw [List.append_nil]⟩

theorem onlyLogs_trans {s1 s2 s3 : ParserState} (h1 : OnlyLogs s1 s2) (h2 : OnlyLogs s2 s3) :
    OnlyLogs s1 s3 := by
  obtain ⟨a, rfl⟩ := h1
  obtain ⟨b, rfl⟩ := h2
  exact ⟨a ++ b, by rw [List.append_assoc]⟩

theorem logMessage_onlyLogs (st : ParserState) (sev : Sev) (text : String) :
    OnlyLogs st (LogMessage st sev text) :=
  ⟨[{ sev := sev, lineNo := st.lineNumber, kw := st.logKeyword, text := text }], rfl⟩

theorem OnlyLogs.currentModule {st st' : ParserState} (h : OnlyLogs st st') :
    st'.currentModule = st.currentModule := by obtain ⟨ms, rfl⟩ := h; rfl

theorem OnlyLogs.definitionName {st st' : ParserState} (h : OnlyLogs st st') :
    st'.definitionName = st.definitionName := by obtain ⟨ms, rfl⟩ := h; rfl

theorem OnlyLogs.currentBlock {st st' : ParserState} (h : OnlyLogs st st') :
    st'.currentBlock = st.currentBlock := by obtain ⟨ms, rfl⟩ := h; rfl

theorem OnlyLogs.userNodeDefaults {st st' : ParserState} (h : OnlyLogs st st') :
    st'.userNodeDefaults = st.userNodeDefaults := by obtain ⟨ms, rfl⟩ := h; rfl

theorem OnlyLogs.seqImporterEnabled {st st' : ParserState} (h : OnlyLogs st st') :
    st'.seqImporterEnabled = st.seqImporterEnabled := by obtain ⟨ms, rfl⟩ := h; rfl

theorem checkNumArguments_ge (st : ParserState) {m n : Nat} (h : n ≤ m) :
    CheckNumArguments st m n = (true, st) := by
  unfold CheckNumArguments
  rw [if_neg (by omega)]

theorem checkNumArguments_lt (st : ParserState) {m n : Nat} (h : m < n) :
    CheckNumArguments st m n = (false, LogMessage st Sev.warning
      ("Not enough arguments (got " ++ toString m ++ ", " ++ toString n ++ " needed), skipping line")) := by
  unfold CheckNumArguments
  rw [if_pos h]

theorem getArgLong_onlyLogs (st : ParserState) (args : List String) (i : Nat) :
    OnlyLogs st (GetArgLong st args i).2 := by
  unfold GetArgLong
  dsimp only
  split
  · exact logMessage_onlyLogs ..
  · split
    · exact logMessage_onlyLogs ..
    · exact onlyLogs_refl ..

theorem getArgInt_onlyLogs (st : ParserState) (args : List String) (i : Nat) :
    OnlyLogs st (GetArgInt st args i).2 :=
  getArgLong_onlyLogs st args i

theorem getArgUint_onlyLogs (st : ParserState) (args : List String) (i : Nat) :
    OnlyLogs st (GetArgUint st args i).2 :=
  getArgLong_onlyLogs st args i

theorem getArgBraking_onlyLogs (st : ParserState) (args : List String) (i : Nat) :
    OnlyLogs st (GetArgBraking st args i).2 := by
  unfold GetArgBraking
  dsimp only
  split
  · exact getArgInt_onlyLogs ..
  · exact onlyLogs_trans (getArgInt_onlyLogs ..) (logMessage_onlyLogs ..)

theorem getArgPropulsion_onlyLogs (st : ParserState) (args : List String) (i : Nat) :
    OnlyLogs st (GetArgPropulsion st args i).2 := by
  unfold GetArgPropulsion
  dsimp only
  split
  · exact getArgInt_onlyLogs ..
  · exact onlyLogs_trans (getArgInt_onlyLogs ..) (logMessage_onlyLogs ..)

theorem parseNodeOptionsGo_onlyLogs (cs : List Char) :
    ∀ (st : ParserState) (opts : Nat), OnlyLogs st (ParseNodeOptionsGo st opts cs).2 := by
  induction cs with
  | nil => intro st opts; exact onlyLogs_refl st
  | cons c rest ih =>
    intro st opts
    unfold ParseNodeOptionsGo
    cases parseNodeOptionChar opts c with
    | some o => exact ih ..
    | none => exact onlyLogs_trans (logMessage_onlyLogs ..) (ih ..)

theorem parseBeamOptionsGo_onlyLogs (cs : List Char) :
    ∀ (st : ParserState) (opts : Nat), OnlyLogs st (ParseBeamOptionsGo st opts cs).2 := by
  induction cs with
  | nil => intro st opts; exact onlyLogs_refl st
  | cons c rest ih =>
    intro st opts
    unfold ParseBeamOptionsGo
    cases parseBeamOptionChar opts c with
    | some o => exact ih ..
    | none => exact onlyLogs_trans (logMessage_onlyLogs ..) (ih ..)

theorem parseModeTokensGo_onlyLogs (toks : List String) :
    ∀ (st : ParserState) (a b c : Bool), OnlyLogs st (parseModeTokensGo st a b c toks).2 := by
  induction toks with
  | nil => intro st a b c; exact onlyLogs_refl st
  | cons t rest ih =>
    intro st a b c
    unfold parseModeTokensGo
    dsimp only
    split
    · exact ih ..
    · exact onlyLogs_trans (logMessage_onlyLogs ..) (ih ..)

@[simp] theorem logMessage_currentModule (st : ParserState) (sev : Sev) (t : String) :
    (LogMessage st sev t).currentModule = st.currentModule := rfl

@[simp] theorem logMessage_definitionName (st : ParserState) (sev : Sev) (t : String) :
    (LogMessage st sev t).definitionName = st.definitionName := rfl

@[simp] theorem modifyCurModule_currentModule (st : ParserState) (f : FileModule → FileModule) :
    (modifyCurModule st f).currentModule = f st.currentModule := rfl

@[simp] theorem modifyCurModule_definitionName (st : ParserState) (f : FileModule → FileModule) :
    (modifyCurModule st f).definitionName = st.definitionName := rfl

@[simp] theorem getArgLong_snd_currentModule (st : ParserState) (args : List String) (i : Nat) :
    (GetArgLong st args i).2.currentModule = st.currentModule :=
  (getArgLong_onlyLogs st args i).currentModule

@[simp] theorem getArgInt_snd_currentModule (st : ParserState) (args : List String) (i : Nat) :
    (GetArgInt st args i).2.currentModule = st.currentModule :=
  (getArgInt_onlyLogs st args i).currentModule

@[simp] theorem getArgUint_snd_currentModule (st : ParserState) (args : List String) (i : Nat) :
    (GetArgUint st args i).2.currentModule = st.currentModule :=
  (getArgUint_onlyLogs st args i).currentModule

@[simp] theorem getArgBraking_snd_currentModule (st : ParserState) (args : List String) (i : Nat) :
    (GetArgBraking st args i).2.currentModule = st.currentModule :=
  (getArgBraking_onlyLogs st args i).currentModule

@[simp] theorem getArgPropulsion_snd_currentModule (st : ParserState) (args : List String) (i : Nat) :
    (GetArgPropulsion st args i).2.currentModule = st.currentModule :=
  (getArgPropulsion_onlyLogs st args i).currentModule

@[simp] theorem parseNodeOptionsGo_snd_currentModule (st : ParserState) (opts : Nat) (cs : List Char) :
    (ParseNodeOptionsGo st opts cs).2.currentModule = st.currentModule :=
  (parseNodeOptionsGo_onlyLogs cs st opts).currentModule

@[simp] theorem parseBeamOptionsGo_snd_currentModule (st : ParserState) (opts : Nat) (cs : List Char) :
    (ParseBeamOptionsGo st opts cs).2.currentModule = st.currentModule :=
  (parseBeamOptionsGo_onlyLogs cs st opts).currentModule

@[simp] theorem parseModeTokensGo_snd_currentModule (st : ParserState) (a b c : Bool) (toks : List String) :
    (parseModeTokensGo st a b c toks).2.currentModule = st.currentModule :=
  (parseModeTokensGo_onlyLogs toks st a b c).currentModule

@[simp] theorem getArgLong_snd_definitionName (st : ParserState) (args : List String) (i : Nat) :
    (GetArgLong st args i).2.definitionName = st.definitionName :=
  (getArgLong_onlyLogs st args i).definitionName

@[simp] theorem getArgInt_snd_definitionName (st : ParserState) (args : List String) (i : Nat) :
    (GetArgInt st args i).2.definitionName = st.definitionName :=
  (getArgInt_onlyLogs st args i).definitionName

@[simp] theorem getArgUint_snd_definitionName (st : ParserState) (args : List String) (i : Nat) :
    (GetArgUint st args i).2.definitionName = st.definitionName :=
  (getArgUint_onlyLogs st args i).definitionName

@[simp] theorem getArgBraking_snd_definitionName (st : ParserState) (args : List String) (i : Nat) :
    (GetArgBraking st args i).2.definitionName = st.definitionName :=
  (getArgBraking_onlyLogs st args i).definitionName

@[simp] theorem getArgPropulsion_snd_definitionName (st : ParserState) (args : List String) (i : Nat) :
    (GetArgPropulsion st args i).2.definitionName = st.definitionName :=
  (getArgPropulsion_onlyLogs st args i).definitionName

@[simp] theorem parseNodeOptionsGo_snd_definitionName (st : ParserState) (opts : Nat) (cs : List Char) :
    (ParseNodeOptionsGo st opts cs).2.definitionName = st.definitionName :=
  (parseNodeOptionsGo_onlyLogs cs st opts).definitionName

@[simp] theorem parseBeamOptionsGo_snd_definitionName (st : ParserState) (opts : Nat) (cs : List Char) :
    (ParseBeamOptionsGo st opts cs).2.definitionName = st.definitionName :=
  (parseBeamOptionsGo_onlyLogs cs st opts).definitionName

@[simp] theorem parseModeTokensGo_snd_definitionName (st : ParserState) (a b c : Bool) (toks : List String) :
    (parseModeTokensGo st a b c toks).2.definitionName = st.definitionName :=
  (parseModeTokensGo_onlyLogs toks st a b c).definitionName

@[simp] theorem parseNodeOptions_snd_currentModule (st : ParserState) (s : String) :
    (ParseNodeOptions st s).2.currentModule = st.currentModule :=
  parseNodeOptionsGo_snd_currentModule st 0 s.toList

@[simp] theorem parseNodeOptions_snd_definitionName (st : ParserState) (s : String) :
    (ParseNodeOptions st s).2.definitionName = st.definitionName :=
  parseNodeOptionsGo_snd_definitionName st 0 s.toList

/-- A nodes data line with enough tokens always appends exactly one node
record capturing the current defaults context. -/
theorem parseNodesUnified_success (st : ParserState) (args : List String) (h : 4 ≤ args.length) :
    ∃ r : Node,
      (ParseNodesUnified st args).currentModule =
        { st.currentModule with nodes := st.currentModule.nodes ++ [r] } ∧
      r.node_defaults = st.userNodeDefaults ∧
      r.beam_defaults = st.userBeamDefaults ∧
      r.default_minimass = st.setDefaultMinimass ∧
      r.detacher_group = st.currentDetacherGroup := by
  simp only [ParseNodesUnified, checkNumArguments_ge st h]
  repeat' split
  all_goals exact ⟨_, by simp; try rfl, rfl, rfl, rfl, rfl⟩

/-- The `set_node_defaults` directive only replaces the current node-defaults
value and possibly logs; it never touches the module collections. -/
theorem parseDirectiveSetNodeDefaults_currentModule (st : ParserState) (args : List String) :
    (ParseDirectiveSetNodeDefaults st args).currentModule = st.currentModule := by
  by_cases h : 2 ≤ args.length
  · simp only [ParseDirectiveSetNodeDefaults, checkNumArguments_ge st h]
    simp
  · simp only [ParseDirectiveSetNodeDefaults, checkNumArguments_lt st (by omega : args.length < 2)]
    simp

/-- Claim C1: in the sequence `set_node_defaults A; node line; set_node_defaults B;
node line`, the first record R1 captures exactly the defaults value current
after directive A, the later directive B leaves R1 untouched (the final node
list is the original list extended by the unchanged R1 and then R2), and R2
captures the defaults value current after directive B. -/
theorem c1_defaults_snapshot_isolation (st : ParserState) (argsA argsB nargs1 nargs2 : List String)
    (h1 : 4 ≤ nargs1.length) (h2 : 4 ≤ nargs2.length) :
    ∃ r1 r2 : Node,
      (ParseNodesUnified (ParseDirectiveSetNodeDefaults st argsA) nargs1).currentModule.nodes =
        st.currentModule.nodes ++ [r1] ∧
      r1.node_defaults = (ParseDirectiveSetNodeDefaults st argsA).userNodeDefaults ∧
      (ParseDirectiveSetNodeDefaults
          (ParseNodesUnified (ParseDirectiveSetNodeDefaults st argsA) nargs1) argsB).currentModule.nodes =
        st.currentModule.nodes ++ [r1] ∧
      (ParseNodesUnified (ParseDirectiveSetNodeDefaults
          (ParseNodesUnified (ParseDirectiveSetNodeDefaults st argsA) nargs1) argsB) nargs2).currentModule.nodes =
        st.currentModule.nodes ++ [r1, r2] ∧
      r2.node_defaults = (ParseDirectiveSetNodeDefaults
          (ParseNodesUnified (ParseDirectiveSetNodeDefaults st argsA) nargs1) argsB).userNodeDefaults := by
  obtain ⟨r1, hmod1, hnd1, -, -, -⟩ :=
    parseNodesUnified_success (ParseDirectiveSetNodeDefaults st argsA) nargs1 h1
  obtain ⟨r2, hmod2, hnd2, -, -, -⟩ :=
    parseNodesUnified_success (ParseDirectiveSetNodeDefaults
      (ParseNodesUnified (ParseDirectiveSetNodeDefaults st argsA) nargs1) argsB) nargs2 h2
  refine ⟨r1, r2, ?_, hnd1, ?_, ?_, hnd2⟩
  · rw [hmod1, parseDirectiveSetNodeDefaults_currentModule]
  · rw [parseDirectiveSetNodeDefaults_currentModule, hmod1,
      parseDirectiveSetNodeDefaults_currentModule]
  · rw [hmod2, parseDirectiveSetNodeDefaults_currentModule, hmod1,
      parseDirectiveSetNodeDefaults_currentModule]
    simp

/-- Claim C4, counterexample: the parser does not strip trailing comments
before tokenizing: processing the beams data line "1 2 ; comment" is not the
same as processing its comment-stripped form (the ";" token is parsed as a
beam options argument and produces a warning). -/
theorem c4_counterexample :
    ProcessRawLine (ProcessLines ["TestRig", "beams"]) "1 2 ; comment" ≠
      ProcessRawLine (ProcessLines ["TestRig", "beams"])
        (TrimTrailingComments "1 2 ; comment") := by
  decide

/-- Claim C4 (amended): `_TrimTrailingComments` exists in the source but has
no caller, so data lines are not comment-stripped; the beams examples still
yield identical beam records only because the comment tokens are decoded as
invalid option characters and ignored with warnings (one for ";", nine for
"//comment"); the free-text help line is stored verbatim.  The dead helper
itself would strip both comment forms (and would even truncate the free-text
path at its last slash). -/
theorem c4_comments_not_stripped :
    (ProcessRawLine (ProcessLines ["TestRig", "beams"]) "1 2 ; comment").currentModule.beams =
      (ProcessRawLine (ProcessLines ["TestRig", "beams"]) "1 2").currentModule.beams ∧
    (ProcessRawLine (ProcessLines ["TestRig", "beams"]) "1 2 //comment").currentModule.beams =
      (ProcessRawLine (ProcessLines ["TestRig", "beams"]) "1 2").currentModule.beams ∧
    (ProcessRawLine (ProcessLines ["TestRig", "beams"]) "1 2 ; comment").messages.length = 1 ∧
    (ProcessRawLine (ProcessLines ["TestRig", "beams"]) "1 2 //comment").messages.length = 9 ∧
    (ProcessRawLine (ProcessLines ["TestRig", "beams"]) "1 2").messages.length = 0 ∧
    TrimTrailingComments "1 2 ; comment" = "1 2 " ∧
    TrimTrailingComments "1 2 //comment" = "1 2" ∧
    TrimTrailingComments "help some/path/thing" = "help some/path" ∧
    (ProcessLines ["TestRig", "help", "some/path/thing"]).currentModule.help =
      [{ material := "some/path/thing" }] := by
  decide

/-- Claim C8: a `section` directive naming the module that is already current
is logged as an error and ignored (the result is the input state plus the
error); and in the scenario `section alpha; two beams; end_section; one beam;
section alpha; one beam`, the root module ends with exactly one record while
module "alpha" (re-entered as the same module object, no second registry
entry) accumulates all three of its records. -/
theorem c8_module_switching (st : ParserState) (args : List String)
    (h3 : 3 ≤ args.length) (hname : GetArgStr args 2 = st.currentModule.name) :
    ProcessChangeModuleLine st Keyword.kwSection args =
      LogMessage st Sev.error "Attempt to re-enter current module, ignoring..." ∧
    (ProcessLines ["MyRig", "section -1 alpha", "beams", "1 2", "3 4",
        "end_section", "beams", "5 6", "section -1 alpha", "beams", "7 8"]).rootModule.beams.length = 1 ∧
    (ProcessLines ["MyRig", "section -1 alpha", "beams", "1 2", "3 4",
        "end_section", "beams", "5 6", "section -1 alpha", "beams", "7 8"]).currentModule.name = "alpha" ∧
    (ProcessLines ["MyRig", "section -1 alpha", "beams", "1 2", "3 4",
        "end_section", "beams", "5 6", "section -1 alpha", "beams", "7 8"]).currentModule.beams.length = 3 ∧
    (ProcessLines ["MyRig", "section -1 alpha", "beams", "1 2", "3 4",
        "end_section", "beams", "5 6", "section -1 alpha", "beams", "7 8"]).userModules.length = 1 := by
  refine ⟨?_, by decide, by decide, by decide, by decide⟩
  unfold ProcessChangeModuleLine
  rw [if_neg (by decide : ¬(Keyword.kwSection = Keyword.kwEndSection)), if_pos rfl,
    checkNumArguments_ge st h3]
  dsimp only
  rw [if_pos hname]

theorem checkNumArguments_snd_onlyLogs (st : ParserState) (m n : Nat) :
    OnlyLogs st (CheckNumArguments st m n).2 := by
  unfold CheckNumArguments
  split
  · exact logMessage_onlyLogs ..
  · exact onlyLogs_refl ..

/-! Every embedded handler preserves the document name: the name is written
exactly once, by the capture branch of `ProcessCurrentLine`. -/

theorem flushStagedObjects_definitionName (st : ParserState) :
    (flushStagedObjects st).definitionName = st.definitionName := by
  unfold flushStagedObjects
  rcases hs : st.currentSubmesh with - | sm
  · rcases hr : st.currentCameraRail with - | rail
    · simp [hs, hr]
    · rcases he : rail.nodes with - | ⟨n, ns⟩
      · simp [hs, hr, he, LogMessage]
      · simp [hs, hr, he, modifyCurModule]
  · rcases hr : st.currentCameraRail with - | rail
    · simp [hs, hr, modifyCurModule]
    · rcases he : rail.nodes with - | ⟨n, ns⟩
      · simp [hs, hr, he, LogMessage, modifyCurModule]
      · simp [hs, hr, he, modifyCurModule]

theorem beginBlock_definitionName (st : ParserState) (kw : Keyword) :
    (BeginBlock st kw).definitionName = st.definitionName := by
  unfold BeginBlock
  repeat' split
  all_goals simp [flushStagedObjects_definitionName]

theorem storeCurrentModule_definitionName (st : ParserState) :
    (storeCurrentModule st).definitionName = st.definitionName := by
  unfold storeCurrentModule
  split
  all_goals simp

theorem switchModule_definitionName (st : ParserState) (newName : String) :
    (switchModule st newName).definitionName = st.definitionName := by
  unfold switchModule
  split
  · simp [storeCurrentModule_definitionName, beginBlock_definitionName]
  · rcases hl : List.lookup newName
        (storeCurrentModule (BeginBlock st Keyword.kwInvalid)).userModules with - | m <;>
      simp [hl, storeCurrentModule_definitionName, beginBlock_definitionName]

theorem processChangeModuleLine_definitionName (st : ParserState) (keyword : Keyword)
    (args : List String) :
    (ProcessChangeModuleLine st keyword args).definitionName = st.definitionName := by
  unfold ProcessChangeModuleLine
  split
  · split
    · simp
    · exact switchModule_definitionName ..
  · split
    · split
      · rename_i st1 heq
        have h2 : (CheckNumArguments st args.length 3).2 = st1 := by rw [heq]
        rw [← h2]
        exact (checkNumArguments_snd_onlyLogs ..).definitionName
      · rename_i st1 heq
        have h2 : (CheckNumArguments st args.length 3).2 = st1 := by rw [heq]
        have hd : st1.definitionName = st.definitionName := by
          rw [← h2]
          exact (checkNumArguments_snd_onlyLogs ..).definitionName
        try dsimp only
        split
        · simp [hd]
        · rw [switchModule_definitionName, hd]
    · rfl

theorem parseBeams_definitionName (st : ParserState) (args : List String) :
    (ParseBeams st args).definitionName = st.definitionName := by
  by_cases h : 2 ≤ args.length
  · simp only [ParseBeams, checkNumArguments_ge st h]
    repeat' split
    all_goals simp
  · simp only [ParseBeams, checkNumArguments_lt st (by omega : args.length < 2)]
    simp

theorem parseNodesUnified_definitionName (st : ParserState) (args : List String) :
    (ParseNodesUnified st args).definitionName = st.definitionName := by
  by_cases h : 4 ≤ args.length
  · simp only [ParseNodesUnified, checkNumArguments_ge st h]
    repeat' split
    all_goals simp
  · simp only [ParseNodesUnified, checkNumArguments_lt st (by omega : args.length < 4)]
    simp

theorem parseWheel_definitionName (st : ParserState) (args : List String) :
    (ParseWheel st args).definitionName = st.definitionName := by
  by_cases h : 14 ≤ args.length
  · simp only [ParseWheel, checkNumArguments_ge st h]
    repeat' split
    all_goals simp
  · simp only [ParseWheel, checkNumArguments_lt st (by omega : args.length < 14)]
    simp

theorem parseCameraRails_definitionName (st : ParserState) (args : List String) :
    (ParseCameraRails st args).definitionName = st.definitionName := by
  unfold ParseCameraRails
  split
  all_goals simp

theorem parseHelp_definitionName (st : ParserState) (line : String) :
    (ParseHelp st line).definitionName = st.definitionName := rfl

theorem parseAntiLockBrakes_definitionName (st : ParserState) (line : String) :
    (ParseAntiLockBrakes st line).definitionName = st.definitionName := by
  by_cases h : 2 ≤ (ogreSplit (String.mk (line.toList.drop 15)) [',']).length
  · simp only [ParseAntiLockBrakes, checkNumArguments_ge st h]
    simp
  · simp only [ParseAntiLockBrakes,
      checkNumArguments_lt st (by omega : (ogreSplit (String.mk (line.toList.drop 15)) [',']).length < 2)]
    simp

theorem parseTractionControl_definitionName (st : ParserState) (line : String) :
    (ParseTractionControl st line).definitionName = st.definitionName := by
  by_cases h : 2 ≤ (ogreSplit (String.mk (line.toList.drop 15)) [',']).length
  · simp only [ParseTractionControl, checkNumArguments_ge st h]
    simp
  · simp only [ParseTractionControl,
      checkNumArguments_lt st (by omega : (ogreSplit (String.mk (line.toList.drop 15)) [',']).length < 2)]
    simp

theorem parseDirectiveDetacherGroup_definitionName (st : ParserState) (args : List String) :
    (ParseDirectiveDetacherGroup st args).definitionName = st.definitionName := by
  by_cases h : 2 ≤ args.length
  · simp only [ParseDirectiveDetacherGroup, checkNumArguments_ge st h]
    repeat' split
    all_goals simp
  · simp only [ParseDirectiveDetacherGroup, checkNumArguments_lt st (by omega : args.length < 2)]
    simp

theorem parseDirectiveSetNodeDefaults_definitionName (st : ParserState) (args : List String) :
    (ParseDirectiveSetNodeDefaults st args).definitionName = st.definitionName := by
  by_cases h : 2 ≤ args.length
  · simp only [ParseDirectiveSetNodeDefaults, checkNumArguments_ge st h]
    simp
  · simp only [ParseDirectiveSetNodeDefaults, checkNumArguments_lt st (by omega : args.length < 2)]
    simp

theorem parseDirectiveSetInertiaDefaults_definitionName (st : ParserState) (args : List String) :
    (ParseDirectiveSetInertiaDefaults st args).definitionName = st.definitionName := by
  by_cases h : 2 ≤ args.length
  · simp only [ParseDirectiveSetInertiaDefaults, checkNumArguments_ge st h]
    repeat' split
    all_goals simp
  · simp only [ParseDirectiveSetInertiaDefaults, checkNumArguments_lt st (by omega : args.length < 2)]
    simp

theorem parseDirectiveSubmesh_definitionName (st : ParserState) :
    (ParseDirectiveSubmesh st).definitionName = st.definitionName := by
  unfold ParseDirectiveSubmesh
  simp [beginBlock_definitionName]

theorem dispatchBlockLine_definitionName (st : ParserState) (line : String) (args : List String) :
    (dispatchBlockLine st line args).definitionName = st.definitionName := by
  unfold dispatchBlockLine
  split
  · exact parseBeams_definitionName ..
  · exact parseNodesUnified_definitionName ..
  · exact parseNodesUnified_definitionName ..
  · exact parseWheel_definitionName ..
  · exact parseCameraRails_definitionName ..
  · exact parseHelp_definitionName ..
  · rfl

theorem processCurrentLine_definitionName (st : ParserState) (line : String)
    (hne : st.definitionName ≠ "") :
    (ProcessCurrentLine st line).definitionName = st.definitionName := by
  unfold ProcessCurrentLine
  split
  · rfl
  · split
    · rename_i hcap
      exact (hne hcap.1).elim
    · dsimp only
      split
      · rw [dispatchBlockLine_definitionName]
      · rw [processChangeModuleLine_definitionName]
      · rw [parseAntiLockBrakes_definitionName]
      · rw [parseDirectiveDetacherGroup_definitionName]
      · rw [processChangeModuleLine_definitionName]
      · rw [parseDirectiveSetInertiaDefaults_definitionName]
      · rw [parseDirectiveSetNodeDefaults_definitionName]
      · rw [parseDirectiveSubmesh_definitionName]
      · rw [parseTractionControl_definitionName]
      · rw [beginBlock_definitionName]
      · rw [beginBlock_definitionName]

theorem processRawLine_definitionName (st : ParserState) (raw : String)
    (hne : st.definitionName ≠ "") :
    (ProcessRawLine st raw).definitionName = st.definitionName := by
  unfold ProcessRawLine
  dsimp only
  split
  · rfl
  · rw [processCurrentLine_definitionName st _ hne]

/-- Claim C7, counterexample: after an empty `camerarail` block, each of the
two following `end` lines emits its own "empty camerarail" warning — two
warnings total, not exactly one — and the staged rail is still not discarded
(it remains staged; the collection stays empty). -/
theorem c7_counterexample :
    (ProcessLines ["TestRig", "camerarail", "end", "end"]).messages.length = 2 ∧
    ((ProcessLines ["TestRig", "camerarail", "end", "end"]).messages.map fun m => m.sev) =
      [Sev.warning, Sev.warning] ∧
    (ProcessLines ["TestRig", "camerarail", "end", "end"]).currentCameraRail ≠ none ∧
    (ProcessLines ["TestRig", "camerarail", "end", "end"]).currentModule.camerarail = [] := by
  decide

/-- Claim C7 (amended): at a block close (`BeginBlock(KEYWORD_INVALID)`, which
`Finalize` also performs), a staged camera rail with zero nodes produces one
warning but is neither committed nor cleared — it stays staged, so every
further close repeats the warning until a new camerarail block replaces it; a
staged camera rail with nodes is committed and cleared silently; a staged
submesh is always committed (even when empty) and cleared; and opening an
ordinary block (neither an end-keyword nor camerarail) flushes nothing. -/
theorem c7_staged_flush (st : ParserState) :
    (∀ rail : CameraRail, st.currentCameraRail = some rail → rail.nodes = [] →
      (BeginBlock st Keyword.kwInvalid).currentCameraRail = some rail ∧
      (BeginBlock st Keyword.kwInvalid).currentModule.camerarail = st.currentModule.camerarail ∧
      (BeginBlock st Keyword.kwInvalid).messages = st.messages ++
        [{ sev := Sev.warning, lineNo := st.lineNumber, kw := st.logKeyword,
           text := "Empty section camerarail, ignoring..." }]) ∧
    (∀ rail : CameraRail, st.currentCameraRail = some rail → rail.nodes ≠ [] →
      (BeginBlock st Keyword.kwInvalid).currentCameraRail = none ∧
      (BeginBlock st Keyword.kwInvalid).currentModule.camerarail =
        st.currentModule.camerarail ++ [rail] ∧
      (BeginBlock st Keyword.kwInvalid).messages = st.messages) ∧
    (∀ sm : Submesh, st.currentSubmesh = some sm →
      (BeginBlock st Keyword.kwInvalid).currentModule.submeshes =
        st.currentModule.submeshes ++ [sm] ∧
      (BeginBlock st Keyword.kwInvalid).currentSubmesh = none) ∧
    (∀ kw : Keyword, kw ≠ Keyword.kwInvalid → kw ≠ Keyword.kwCamerarail →
      BeginBlock st kw = { st with currentBlock := kw }) ∧
    Finalize st = BeginBlock st Keyword.kwInvalid := by
  refine ⟨?_, ?_, ?_, ?_, rfl⟩
  · intro rail hr hempty
    rcases hs : st.currentSubmesh with - | sm
    all_goals
      simp [BeginBlock, flushStagedObjects, hs, hr, hempty, LogMessage, modifyCurModule]
  · intro rail hr hne
    rcases hs : st.currentSubmesh with - | sm
    all_goals
      simp [BeginBlock, flushStagedObjects, hs, hr, List.isEmpty_iff, hne, modifyCurModule]
  · intro sm hs
    rcases hr : st.currentCameraRail with - | rail
    · simp [BeginBlock, flushStagedObjects, hs, hr, modifyCurModule]
    · rcases he : rail.nodes with - | ⟨n, ns⟩
      all_goals
        simp [BeginBlock, flushStagedObjects, hs, hr, he, LogMessage, modifyCurModule]
  · intro kw h1 h2
    unfold BeginBlock
    rw [if_neg h1, if_neg h2]

/-- Claim C9: the first processed line that is not blank and does not start
with a comment character becomes the document name — consumed entirely by the
capture even when it is a recognized keyword line, with no other state change
— and once the name is non-empty no later line (processed directly or through
the raw-line pipeline) ever changes it. -/
theorem c9_document_name_capture (st : ParserState) (line : String) :
    ((line.toList.headD ' ' = ';' ∨ line.toList.headD ' ' = '/') →
      ProcessCurrentLine st line = st) ∧
    (st.definitionName = "" → line ≠ "" →
      ¬(line.toList.headD ' ' = ';' ∨ line.toList.headD ' ' = '/') →
      ProcessCurrentLine st line = { st with definitionName := line }) ∧
    (st.definitionName ≠ "" →
      (ProcessCurrentLine st line).definitionName = st.definitionName) ∧
    (st.definitionName ≠ "" → ∀ lines : List String,
      (List.foldl ProcessRawLine st lines).definitionName = st.definitionName) := by
  refine ⟨?_, ?_, processCurrentLine_definitionName st line, ?_⟩
  · intro hc
    unfold ProcessCurrentLine
    rw [if_pos hc]
  · intro h1 h2 h3
    unfold ProcessCurrentLine
    rw [if_neg h3, if_pos ⟨h1, h2⟩]
  · intro hne lines
    induction lines generalizing st with
    | nil => rfl
    | cons l ls ih =>
      rw [List.foldl_cons, ih (ProcessRawLine st l)
        (by rw [processRawLine_definitionName st l hne]; exact hne),
        processRawLine_definitionName st l hne]

/-! Claim theorems (continued). -/

/-- Claim C2, counterexample: after `set_node_defaults 1 5` sets friction to
5, the directive `set_node_defaults 2 -1` resolves the negative friction
sentinel to the engine default 1, not to the prior chain value 5. -/
theorem c2_counterexample :
    (ParseDirectiveSetNodeDefaults Prepare ["set_node_defaults", "1", "5"]).userNodeDefaults.friction = 5 ∧
    (ParseDirectiveSetNodeDefaults (ParseDirectiveSetNodeDefaults Prepare
        ["set_node_defaults", "1", "5"]) ["set_node_defaults", "2", "-1"]).userNodeDefaults.friction ≠ 5 ∧
    (ParseDirectiveSetNodeDefaults (ParseDirectiveSetNodeDefaults Prepare
        ["set_node_defaults", "1", "5"]) ["set_node_defaults", "2", "-1"]).userNodeDefaults.friction =
      Prepare.rorNodeDefaults.friction := by
  decide

/-- Claim C2 (amended): in `set_node_defaults`, a scalar field given a
negative value (or left unspecified, which defaults it to the sentinel -1)
resolves to the fixed engine default from `m_ror_node_defaults`, never to the
prior chain link; in `set_inertia_defaults` a negative start or stop delay
resets the whole chain to the engine inertia defaults; only the very first
link of the chain (installed by `Prepare`) coincides with the engine
defaults. -/
theorem c2_sentinel_resolves_to_engine_defaults (st : ParserState) (args : List String)
    (h : 2 ≤ args.length) :
    ((ParseDirectiveSetNodeDefaults st args).userNodeDefaults.load_weight =
        (if GetArgFloat args 1 < 0 then st.rorNodeDefaults.load_weight else GetArgFloat args 1) ∧
      (ParseDirectiveSetNodeDefaults st args).userNodeDefaults.friction =
        (if (if 2 < args.length then GetArgFloat args 2 else -1) < 0 then st.rorNodeDefaults.friction
         else if 2 < args.length then GetArgFloat args 2 else -1) ∧
      (ParseDirectiveSetNodeDefaults st args).userNodeDefaults.volume =
        (if (if 3 < args.length then GetArgFloat args 3 else -1) < 0 then st.rorNodeDefaults.volume
         else if 3 < args.length then GetArgFloat args 3 else -1) ∧
      (ParseDirectiveSetNodeDefaults st args).userNodeDefaults.surface =
        (if (if 4 < args.length then GetArgFloat args 4 else -1) < 0 then st.rorNodeDefaults.surface
         else if 4 < args.length then GetArgFloat args 4 else -1)) ∧
    (∀ (st2 : ParserState) (args2 : List String), 2 ≤ args2.length →
      (GetArgFloat args2 1 < 0 ∨ (if 2 < args2.length then GetArgFloat args2 2 else 0) < 0) →
      (ParseDirectiveSetInertiaDefaults st2 args2).userDefaultInertia = st2.rorDefaultInertia) ∧
    Prepare.userNodeDefaults = Prepare.rorNodeDefaults := by
  refine ⟨?_, ?_, rfl⟩
  · have hc := checkNumArguments_ge st h
    unfold ParseDirectiveSetNodeDefaults
    rw [hc]
    exact ⟨rfl, rfl, rfl, rfl⟩
  · intro st2 args2 h2 hneg
    simp only [ParseDirectiveSetInertiaDefaults, checkNumArguments_ge st2 h2]
    rw [if_pos hneg]

/-- Claim C3: a wheels data line with fewer than the required 14 tokens
produces exactly one warning and no other state change (the result is the
input state plus one warning); with at least 14 tokens exactly one wheel
record is appended to the current module; in general `CheckNumArguments`
warns and fails below the minimum and is a no-op otherwise. -/
theorem c3_argument_count_gate (st : ParserState) (args : List String) :
    (args.length < 14 →
      ParseWheel st args = LogMessage st Sev.warning
        ("Not enough arguments (got " ++ toString args.length ++ ", " ++ toString 14 ++ " needed), skipping line")) ∧
    (14 ≤ args.length →
      ∃ w : Wheel, (ParseWheel st args).currentModule.wheels = st.currentModule.wheels ++ [w]) ∧
    (∀ numArgs minArgs : Nat, numArgs < minArgs →
      CheckNumArguments st numArgs minArgs =
        (false, LogMessage st Sev.warning
          ("Not enough arguments (got " ++ toString numArgs ++ ", " ++ toString minArgs ++ " needed), skipping line"))) ∧
    (∀ numArgs minArgs : Nat, minArgs ≤ numArgs →
      CheckNumArguments st numArgs minArgs = (true, st)) := by
  refine ⟨?_, ?_, fun a b hab => checkNumArguments_lt st hab, fun a b hab => checkNumArguments_ge st hab⟩
  · intro h
    simp only [ParseWheel, checkNumArguments_lt st h]
  · intro h
    simp only [ParseWheel, checkNumArguments_ge st h]
    repeat' split
    all_goals exact ⟨_, by simp; try rfl⟩

/-- Claim C5: evaluation of the code at the failing input.  An
`antilockbrakes` line with exactly three comma tokens leaves `pulse_per_sec`
at its default 0 (the third token is gated on more than three tokens being
present); with four tokens the third token is read; the sibling
`tractioncontrol` parser reads its optional third token already at three
tokens, following the claimed policy. -/
theorem c5_antilockbrakes_pulse_gate :
    (∀ (st : ParserState) (line : String),
      (ogreSplit (String.mk (line.toList.drop 15)) [',']).length = 3 →
      ∃ r : AntiLockBrakes,
        (ParseAntiLockBrakes st line).currentModule.antilockbrakes =
          st.currentModule.antilockbrakes ++ [r] ∧ r.pulse_per_sec = 0) ∧
    ((ProcessLines ["MyRig", "AntiLockBrakes 1000, 10, 5"]).currentModule.antilockbrakes.map
        fun a => a.pulse_per_sec) = [0] ∧
    ((ProcessLines ["MyRig", "AntiLockBrakes 1000, 10, 5, mode: on"]).currentModule.antilockbrakes.map
        fun a => a.pulse_per_sec) = [5] ∧
    ((ProcessLines ["MyRig", "TractionControl 1000, 2, 5"]).currentModule.tractioncontrol.map
        fun t => t.fade_speed) = [5] := by
  refine ⟨?_, by decide, by decide, by decide⟩
  intro st line h3
  simp only [ParseAntiLockBrakes, h3, checkNumArguments_ge st (by omega : 2 ≤ 3)]
  norm_num

/-- Claim C6, counterexample: the integer decoder does not substitute 0 on
trailing garbage: the token "12abc" decodes to 12 with one warning. -/
theorem c6_counterexample :
    (GetArgLong Prepare ["12abc"] 0).1 = 12 ∧
    (GetArgLong Prepare ["12abc"] 0).1 ≠ 0 ∧
    (GetArgLong Prepare ["12abc"] 0).2.messages =
      [{ sev := Sev.warning, lineNo := 1, kw := Keyword.kwInvalid,
         text := "Integer argument [1] has invalid trailing characters" }] := by
  decide

/-- Claim C6 (amended): the integer decoder substitutes 0 with an error
diagnostic only when no number can be parsed at all; trailing garbage after a
valid number logs a warning but keeps the parsed value; a fully valid number
is returned silently.  The float decoder is stateless (no diagnostics): it
returns the parsed leading prefix and substitutes 0 only on total failure.
The line is never aborted: a record is still created (shown for beams). -/
theorem c6_numeric_decode_fallback (st : ParserState) (args : List String) (i : Nat) :
    ((strtol10 (GetArgStr args i).toList).2 = 0 →
      GetArgLong st args i =
        (0, LogMessage st Sev.error ("Argument [" ++ toString (i + 1) ++ "] is not valid integer"))) ∧
    ((strtol10 (GetArgStr args i).toList).2 ≠ 0 →
      (strtol10 (GetArgStr args i).toList).2 ≠ (GetArgStr args i).toList.length →
      GetArgLong st args i = ((strtol10 (GetArgStr args i).toList).1,
        LogMessage st Sev.warning ("Integer argument [" ++ toString (i + 1) ++ "] has invalid trailing characters"))) ∧
    ((strtol10 (GetArgStr args i).toList).2 ≠ 0 →
      (strtol10 (GetArgStr args i).toList).2 = (GetArgStr args i).toList.length →
      GetArgLong st args i = ((strtol10 (GetArgStr args i).toList).1, st)) ∧
    (GetArgFloat args i = parseRealModel (GetArgStr args i)) ∧
    parseRealModel "2.5xyz" = Frac.mk 25 10 ∧ parseRealModel "xyz" = 0 ∧
    (∀ (st2 : ParserState) (args2 : List String), 2 ≤ args2.length →
      ∃ b : Beam, (ParseBeams st2 args2).currentModule.beams = st2.currentModule.beams ++ [b]) := by
  refine ⟨?_, ?_, ?_, rfl, by decide, by decide, ?_⟩
  · intro h0
    unfold GetArgLong
    dsimp only
    rw [if_pos h0]
  · intro h0 hl
    unfold GetArgLong
    dsimp only
    rw [if_neg h0, if_pos hl]
  · intro h0 hl
    unfold GetArgLong
    dsimp only
    rw [if_neg h0, if_neg (not_not_intro hl)]
  · intro st2 args2 h2
    simp only [ParseBeams, checkNumArguments_ge st2 h2]
    repeat' split
    all_goals exact ⟨_, by simp; try rfl⟩

/-- Claim C10: the `detacher_group` directive with literal argument "end"
resets the current detacher group to 0 (and changes nothing else); any other
argument sets it to the argument's decoded integer value; every beam record
created afterwards captures the current detacher group at creation time. -/
theorem c10_detacher_group (st : ParserState) (args : List String) (h : 2 ≤ args.length) :
    (GetArgStr args 1 = "end" →
      ParseDirectiveDetacherGroup st args = { st with currentDetacherGroup := 0 }) ∧
    (GetArgStr args 1 ≠ "end" →
      (ParseDirectiveDetacherGroup st args).currentDetacherGroup = (GetArgInt st args 1).1) ∧
    (∀ (st2 : ParserState) (args2 : List String), 2 ≤ args2.length →
      ∃ b : Beam, (ParseBeams st2 args2).currentModule.beams = st2.currentModule.beams ++ [b] ∧
        b.detacher_group = st2.currentDetacherGroup) := by
  refine ⟨?_, ?_, ?_⟩
  · intro he
    simp only [ParseDirectiveDetacherGroup, checkNumArguments_ge st h]
    rw [if_pos he]
  · intro hne
    simp only [ParseDirectiveDetacherGroup, checkNumArguments_ge st h]
    rw [if_neg hne]
  · intro st2 args2 h2
    simp only [ParseBeams, checkNumArguments_ge st2 h2]
    repeat' split
    all_goals exact ⟨_, by simp; try rfl, rfl⟩

/-! Witnesses: each theorem with hypotheses applied at a concrete input. -/

/-- Witness for C1 at a concrete directive/node-line sequence. -/
theorem c1_witness :
    (4 ≤ (["0", "0", "0", "0"] : List String).length) ∧
    (4 ≤ (["1", "0", "0", "0"] : List String).length) ∧
    ∃ r1 r2 : Node,
      (ParseNodesUnified (ParseDirectiveSetNodeDefaults Prepare ["set_node_defaults", "1", "5"])
          ["0", "0", "0", "0"]).currentModule.nodes = Prepare.currentModule.nodes ++ [r1] ∧
      r1.node_defaults =
        (ParseDirectiveSetNodeDefaults Prepare ["set_node_defaults", "1", "5"]).userNodeDefaults ∧
      (ParseDirectiveSetNodeDefaults (ParseNodesUnified (ParseDirectiveSetNodeDefaults Prepare
          ["set_node_defaults", "1", "5"]) ["0", "0", "0", "0"]) ["set_node_defaults", "2"]).currentModule.nodes =
        Prepare.currentModule.nodes ++ [r1] ∧
      (ParseNodesUnified (ParseDirectiveSetNodeDefaults (ParseNodesUnified
          (ParseDirectiveSetNodeDefaults Prepare ["set_node_defaults", "1", "5"]) ["0", "0", "0", "0"])
          ["set_node_defaults", "2"]) ["1", "0", "0", "0"]).currentModule.nodes =
        Prepare.currentModule.nodes ++ [r1, r2] ∧
      r2.node_defaults = (ParseDirectiveSetNodeDefaults (ParseNodesUnified
          (ParseDirectiveSetNodeDefaults Prepare ["set_node_defaults", "1", "5"]) ["0", "0", "0", "0"])
          ["set_node_defaults", "2"]).userNodeDefaults :=
  ⟨by decide, by decide,
    c1_defaults_snapshot_isolation Prepare ["set_node_defaults", "1", "5"] ["set_node_defaults", "2"]
      ["0", "0", "0", "0"] ["1", "0", "0", "0"] (by decide) (by decide)⟩

/-- Witness for the amended C2 at a concrete directive. -/
theorem c2_witness :
    (2 ≤ (["set_node_defaults", "-1"] : List String).length) ∧
    (ParseDirectiveSetNodeDefaults Prepare ["set_node_defaults", "-1"]).userNodeDefaults.load_weight =
      (if GetArgFloat ["set_node_defaults", "-1"] 1 < 0 then Prepare.rorNodeDefaults.load_weight
       else GetArgFloat ["set_node_defaults", "-1"] 1) :=
  ⟨by decide,
    (c2_sentinel_resolves_to_engine_defaults Prepare ["set_node_defaults", "-1"] (by decide)).1.1⟩

/-- Witness for C3: a 1-token wheels line fails with one warning; a 14-token
line appends one wheel. -/
theorem c3_witness :
    ((["9"] : List String).length < 14 ∧
      ParseWheel Prepare ["9"] = LogMessage Prepare Sev.warning
        ("Not enough arguments (got " ++ toString (["9"] : List String).length ++ ", " ++
          toString 14 ++ " needed), skipping line")) ∧
    (14 ≤ (["1", "1", "4", "0", "1", "9999", "1", "1", "0", "100", "9000", "200", "f", "b"] : List String).length ∧
      ∃ w : Wheel,
        (ParseWheel Prepare ["1", "1", "4", "0", "1", "9999", "1", "1", "0", "100", "9000", "200", "f", "b"]).currentModule.wheels =
          Prepare.currentModule.wheels ++ [w]) :=
  ⟨⟨by decide, (c3_argument_count_gate Prepare ["9"]).1 (by decide)⟩,
   ⟨by decide, (c3_argument_count_gate Prepare
      ["1", "1", "4", "0", "1", "9999", "1", "1", "0", "100", "9000", "200", "f", "b"]).2.1 (by decide)⟩⟩

/-- Witness for C5 at a concrete three-token antilockbrakes line. -/
theorem c5_witness :
    ((ogreSplit (String.mk (("antilockbrakes 1, 2, 3" : String).toList.drop 15)) [',']).length = 3 ∧
      ∃ r : AntiLockBrakes,
        (ParseAntiLockBrakes Prepare "antilockbrakes 1, 2, 3").currentModule.antilockbrakes =
          Prepare.currentModule.antilockbrakes ++ [r] ∧ r.pulse_per_sec = 0) :=
  ⟨by decide, (c5_antilockbrakes_pulse_gate).1 Prepare "antilockbrakes 1, 2, 3" (by decide)⟩

/-- Witness for the amended C6: total parse failure substitutes 0 with an
error; a line of unparseable node tokens still creates a beam record. -/
theorem c6_witness :
    ((strtol10 (GetArgStr ["xyz"] 0).toList).2 = 0 ∧
      GetArgLong Prepare ["xyz"] 0 =
        (0, LogMessage Prepare Sev.error ("Argument [" ++ toString (0 + 1) ++ "] is not valid integer"))) ∧
    (2 ≤ (["1", "2"] : List String).length ∧
      ∃ b : Beam, (ParseBeams Prepare ["1", "2"]).currentModule.beams =
        Prepare.currentModule.beams ++ [b]) :=
  ⟨⟨by decide, (c6_numeric_decode_fallback Prepare ["xyz"] 0).1 (by decide)⟩,
   ⟨by decide, (c6_numeric_decode_fallback Prepare ["xyz"] 0).2.2.2.2.2.2 Prepare ["1", "2"] (by decide)⟩⟩

/-- Witness for the amended C7: an ordinary block-open does not flush, and an
empty staged rail survives a close. -/
theorem c7_witness :
    (Keyword.kwBeams ≠ Keyword.kwInvalid ∧ Keyword.kwBeams ≠ Keyword.kwCamerarail ∧
      BeginBlock Prepare Keyword.kwBeams = { Prepare with currentBlock := Keyword.kwBeams }) ∧
    (({ Prepare with currentCameraRail := some { nodes := [] } } : ParserState).currentCameraRail =
        some { nodes := [] } ∧
      (BeginBlock { Prepare with currentCameraRail := some { nodes := [] } }
          Keyword.kwInvalid).currentCameraRail = some { nodes := [] }) :=
  ⟨⟨by decide, by decide,
      (c7_staged_flush Prepare).2.2.2.1 Keyword.kwBeams (by decide) (by decide)⟩,
   ⟨rfl, ((c7_staged_flush { Prepare with currentCameraRail := some { nodes := [] } }).1
      { nodes := [] } rfl rfl).1⟩⟩

/-- Witness for C8: re-entering the root module by its reserved name is logged
and ignored. -/
theorem c8_witness :
    (3 ≤ (["section", "-1", "_Root_"] : List String).length ∧
      GetArgStr ["section", "-1", "_Root_"] 2 = Prepare.currentModule.name) ∧
    ProcessChangeModuleLine Prepare Keyword.kwSection ["section", "-1", "_Root_"] =
      LogMessage Prepare Sev.error "Attempt to re-enter current module, ignoring..." :=
  ⟨⟨by decide, by decide⟩,
   (c8_module_switching Prepare ["section", "-1", "_Root_"] (by decide) (by decide)).1⟩

/-- Witness for C9: a comment line is inert; the first non-comment line is
captured as the document name even though it is the keyword "beams". -/
theorem c9_witness :
    ((";x".toList.headD ' ' = ';' ∨ ";x".toList.headD ' ' = '/') ∧
      ProcessCurrentLine Prepare ";x" = Prepare) ∧
    (Prepare.definitionName = "" ∧ ("beams" : String) ≠ "" ∧
      ¬(("beams" : String).toList.headD ' ' = ';' ∨ ("beams" : String).toList.headD ' ' = '/') ∧
      ProcessCurrentLine Prepare "beams" = { Prepare with definitionName := "beams" }) :=
  ⟨⟨by decide, (c9_document_name_capture Prepare ";x").1 (by decide)⟩,
   ⟨rfl, by decide, by decide,
    (c9_document_name_capture Prepare "beams").2.1 rfl (by decide) (by decide)⟩⟩

/-- Witness for C10: the "end" argument resets the detacher group. -/
theorem c10_witness :
    (2 ≤ (["detacher_group", "end"] : List String).length ∧
      GetArgStr ["detacher_group", "end"] 1 = "end") ∧
    ParseDirectiveDetacherGroup Prepare ["detacher_group", "end"] =
      { Prepare with currentDetacherGroup := 0 } :=
  ⟨⟨by decide, by decide⟩,
   (c10_detacher_group Prepare ["detacher_group", "end"] (by decide)).1 (by decide)⟩

end RigDef
